import Mathlib

/-!
Verification of the backup/restore subsystem of the health-tracker app
(src/core/core-scripts.js): the CSV codec (escapeCSV, parseCSVRow,
convertDataToCSV, parseCSVData), the storage manager (getUsage,
isNearQuota, cleanupOldData, safeSetItem) and the import orchestrator
(performDataImport), shallowly embedded in Lean.

Modelling conventions, used throughout:
* JS strings are Lean String values; the tokenizer and the splitter work
  on the underlying character lists. JS string comparison is by UTF-16
  code units; Lean Char comparison is by unicode scalar value. The two
  orders agree on all code points below 0x10000, which covers every
  string these theorems touch.
* A JS value that may be null or undefined is an Option; both null and
  undefined are modelled as none wherever the source treats them alike
  (both are falsy, both serialize to an empty CSV field, and
  JSON.stringify drops both from output).
* localStorage is modelled per component at the granularity the
  component reads it: an association list of key/value string pairs for
  getUsage, a structured record of the parsed JSON values for
  convertDataToCSV and cleanupOldData (a Stored value is corrupt when
  the stored text makes JSON.parse throw), and an abstract per-key write
  oracle for safeSetItem and performDataImport.
* JS exceptions are Except errors; machine integers do not occur (all
  arithmetic is on small Nat and Int values; the one floating-point
  comparison, in isNearQuota, is replaced by the exact rational
  comparison, which provably agrees at every integer usage, see the
  comment there).
-/

namespace HealthTracker

/-! ## CSV field tokenizer and field escaping (the codec leaf functions) -/

/-- Tokenizer loop of parseCSVRow (core-scripts.js lines 1096-1130).
The JS walks the row with an index, an insideQuotes flag and a
currentValue accumulator; here the remaining characters are a list and
the accumulator is kept reversed. A doubled quote is always consumed as
one literal quote (the source checks the pair before looking at the
flag); a lone quote toggles the flag; a comma outside quotes closes the
field; anything else is appended. -/
def parseCSVRowAux : List Char → Bool → List Char → List (List Char)
  | [], _, acc => [acc.reverse]
  | '"' :: '"' :: rest, inside, acc => parseCSVRowAux rest inside ('"' :: acc)
  | '"' :: rest, inside, acc => parseCSVRowAux rest (!inside) acc
  | ',' :: rest, false, acc => acc.reverse :: parseCSVRowAux rest false []
  | c :: rest, inside, acc => parseCSVRowAux rest inside (c :: acc)

/-- parseCSVRow (core-scripts.js lines 1096-1130): tokenize one row into
its fields. -/
def parseCSVRow (row : String) : List String :=
  (parseCSVRowAux row.data false []).map String.mk

/-- The regex replace of escapeCSV: every double quote is doubled. -/
def dqChars : List Char → List Char
  | [] => []
  | c :: r => if c = '"' then '"' :: '"' :: dqChars r else c :: dqChars r

/-- String.includes on a single character. -/
def containsChar (s : String) (c : Char) : Bool := s.data.contains c

/-- escapeCSV (core-scripts.js lines 784-791) on a present string value:
wrap in double quotes, doubling internal double quotes, iff the value
contains a comma, a double quote or a newline. -/
def escapeCSVStr (s : String) : String :=
  if containsChar s ',' || containsChar s '"' || containsChar s '\n' then
    "\"" ++ String.mk (dqChars s.data) ++ "\""
  else s

/-- escapeCSV on a possibly-null cell: null and undefined serialize to
the empty field. -/
def escapeCSV : Option String → String
  | none => ""
  | some s => escapeCSVStr s

theorem aux_nil (i : Bool) (a : List Char) :
    parseCSVRowAux [] i a = [a.reverse] := rfl

theorem aux_pair (rest : List Char) (i : Bool) (a : List Char) :
    parseCSVRowAux ('"' :: '"' :: rest) i a = parseCSVRowAux rest i ('"' :: a) := rfl

theorem aux_quote_nil (i : Bool) (a : List Char) :
    parseCSVRowAux ['"'] i a = parseCSVRowAux [] (!i) a := rfl

theorem aux_quote_ne (c : Char) (h : c ≠ '"') (rest : List Char) (i : Bool) (a : List Char) :
    parseCSVRowAux ('"' :: c :: rest) i a = parseCSVRowAux (c :: rest) (!i) a := by
  rw [parseCSVRowAux.eq_def]
  split
  · rename_i heq; exact absurd heq (by simp)
  · rename_i heq; simp only [List.cons.injEq] at heq; exact absurd heq.2.1 h
  · rename_i heq; simp only [List.cons.injEq] at heq; rw [heq.2]
  · rename_i heq
    simp only [List.cons.injEq] at heq
    exact absurd heq.1 (by decide)
  · rename_i hpair hq heq hcm
    simp only [List.cons.injEq] at heq
    exact absurd heq.1.symm hq

theorem aux_comma (rest : List Char) (a : List Char) :
    parseCSVRowAux (',' :: rest) false a = a.reverse :: parseCSVRowAux rest false [] := by
  rw [parseCSVRowAux.eq_def]
  split
  · rename_i heq; exact absurd heq (by simp)
  · rename_i heq; simp only [List.cons.injEq] at heq; exact absurd heq.1 (by decide)
  · rename_i heq; simp only [List.cons.injEq] at heq; exact absurd heq.1 (by decide)
  · rename_i heq hb; simp only [List.cons.injEq] at heq; rw [heq.2]
  · rename_i hpair hq heq hcm
    simp only [List.cons.injEq] at heq
    exact absurd heq.1.symm (fun hc => hcm hc rfl)

theorem aux_cons_inside (c : Char) (h : c ≠ '"') (rest : List Char) (a : List Char) :
    parseCSVRowAux (c :: rest) true a = parseCSVRowAux rest true (c :: a) := by
  rw [parseCSVRowAux.eq_def]
  split
  · rename_i heq; exact absurd heq (by simp)
  · rename_i heq; simp only [List.cons.injEq] at heq; exact absurd heq.1 h
  · rename_i heq; simp only [List.cons.injEq] at heq; exact absurd heq.1 h
  · rename_i heq hb; simp only [List.cons.injEq] at heq; cases hb
  · rename_i hpair hq heq hcm
    simp only [List.cons.injEq] at heq
    rw [heq.1, heq.2]

theorem aux_other (c : Char) (h1 : c ≠ '"') (h2 : c ≠ ',') (rest : List Char) (i : Bool)
    (a : List Char) :
    parseCSVRowAux (c :: rest) i a = parseCSVRowAux rest i (c :: a) := by
  rw [parseCSVRowAux.eq_def]
  split
  · rename_i heq; exact absurd heq (by simp)
  · rename_i heq; simp only [List.cons.injEq] at heq; exact absurd heq.1 h1
  · rename_i heq; simp only [List.cons.injEq] at heq; exact absurd heq.1 h1
  · rename_i heq; simp only [List.cons.injEq] at heq; exact absurd heq.1 h2
  · rename_i hpair hq heq hcm
    simp only [List.cons.injEq] at heq
    rw [heq.1, heq.2]

theorem dq_nil : dqChars [] = [] := rfl

theorem dq_quote (r : List Char) : dqChars ('"' :: r) = '"' :: '"' :: dqChars r := by
  simp [dqChars]

theorem dq_ne (c : Char) (h : c ≠ '"') (r : List Char) : dqChars (c :: r) = c :: dqChars r := by
  simp [dqChars, h]

/-- Inside a quoted field: the tokenizer consumes the doubled content,
appending the undoubled characters, until the closing quote flips the
flag off, provided the character after the closing quote is not another
quote. -/
theorem aux_inside (l : List Char) : ∀ (acc rest : List Char), rest.head? ≠ some '"' →
    parseCSVRowAux (dqChars l ++ '"' :: rest) true acc =
      parseCSVRowAux rest false (l.reverse ++ acc) := by
  induction l with
  | nil =>
    intro acc rest hrest
    simp only [dq_nil, List.nil_append, List.reverse_nil]
    cases rest with
    | nil => rfl
    | cons c rs =>
      have hc : c ≠ '"' := by
        intro hc; exact hrest (by rw [hc]; rfl)
      exact aux_quote_ne c hc rs true acc
  | cons c l' ih =>
    intro acc rest hrest
    by_cases hc : c = '"'
    · subst hc
      rw [dq_quote, List.cons_append, List.cons_append, aux_pair,
        ih ('"' :: acc) rest hrest]
      simp
    · rw [dq_ne c hc, List.cons_append, aux_cons_inside c hc, ih (c :: acc) rest hrest]
      simp

/-- Opening a quoted field: tokenizing the full escaped form of l
yields l appended to the accumulator and continues on the rest, for any
l that is not made of double quotes only. The leading quotes of l pair
with the opening quote one after the other, which is why a field made
only of quotes decodes to one extra quote (see the C1 analysis). -/
theorem aux_start (l : List Char) : ∀ (acc rest : List Char), (∃ x ∈ l, x ≠ '"') →
    rest.head? ≠ some '"' →
    parseCSVRowAux ('"' :: (dqChars l ++ '"' :: rest)) false acc =
      parseCSVRowAux rest false (l.reverse ++ acc) := by
  induction l with
  | nil =>
    intro acc rest hex hrest
    obtain ⟨x, hx, _⟩ := hex
    exact absurd hx (List.not_mem_nil x)
  | cons c l' ih =>
    intro acc rest hex hrest
    by_cases hc : c = '"'
    · subst hc
      rw [dq_quote, List.cons_append, List.cons_append, aux_pair]
      have hex' : ∃ x ∈ l', x ≠ '"' := by
        obtain ⟨x, hx, hxq⟩ := hex
        cases List.mem_cons.mp hx with
        | inl h => exact absurd h hxq
        | inr h => exact ⟨x, h, hxq⟩
      rw [ih ('"' :: acc) rest hex' hrest]
      simp
    · rw [dq_ne c hc, List.cons_append, aux_quote_ne c hc]
      simp only [Bool.not_false]
      rw [aux_cons_inside c hc, aux_inside l' (c :: acc) rest hrest]
      simp

theorem mk_data (s : String) : String.mk s.data = s := by
  cases s; rfl

theorem contains_exists_ne (s : String) (h : containsChar s ',' = true) :
    ∃ x ∈ s.data, x ≠ '"' := by
  have hmem : ',' ∈ s.data := by
    simpa [containsChar, List.contains] using h
  exact ⟨',', hmem, by decide⟩

/-- C3: for every string that contains a comma, a double quote and a
newline, escapeCSV wraps it in double quotes with internal quotes
doubled, and the field tokenizer parseCSVRow decodes that encoding back
to exactly the original string as the single resulting field. -/
theorem C3_escape_tokenize_roundtrip (s : String)
    (h1 : containsChar s ',' = true) (h2 : containsChar s '"' = true)
    (h3 : containsChar s '\n' = true) :
    parseCSVRow (escapeCSVStr s) = [s] := by
  have hq : escapeCSVStr s = "\"" ++ String.mk (dqChars s.data) ++ "\"" := by
    simp [escapeCSVStr, h1, h2, h3]
  have hdata : (escapeCSVStr s).data = '"' :: (dqChars s.data ++ '"' :: []) := by
    rw [hq]
    simp [String.data_append]
  rw [parseCSVRow, hdata,
    aux_start s.data [] [] (contains_exists_ne s h1) (by simp)]
  simp [aux_nil, mk_data]

/-- Witness for C3 at a concrete string holding a comma, a quote and a
newline. -/
theorem C3_escape_tokenize_roundtrip_witness :
    containsChar "a,\"\nb" ',' = true ∧ containsChar "a,\"\nb" '"' = true ∧
      containsChar "a,\"\nb" '\n' = true ∧ parseCSVRow (escapeCSVStr "a,\"\nb") = ["a,\"\nb"] :=
  ⟨by decide, by decide, by decide,
    C3_escape_tokenize_roundtrip "a,\"\nb" (by decide) (by decide) (by decide)⟩

/-! ## Storage manager: usage and quota (C4) -/

/-- getUsage (core-scripts.js lines 48-62): total usage is the sum of
key length plus value length over the stored pairs, skipping any pair
whose key or value is the empty string (the key-and-value guard at
line 54: the empty string is falsy). -/
def getUsage (store : List (String × String)) : Nat :=
  store.foldl
    (fun total kv =>
      if kv.1 != "" && kv.2 != "" then total + kv.1.length + kv.2.length else total) 0

/-- Quota constant of the active tier (2 MiB constrained, 5 MiB
otherwise), from isNearQuota and getRemainingSpace (lines 65-76). -/
def quotaBytes (isIOS : Bool) : Nat :=
  if isIOS then 2 * 1024 * 1024 else 5 * 1024 * 1024

/-- Tier threshold as tenths (0.7 constrained, 0.9 otherwise), from
isNearQuota (line 74). -/
def thresholdTenths (isIOS : Bool) : Nat := if isIOS then 7 else 9

/-- isNearQuota (core-scripts.js lines 71-76): usage strictly above
quota times threshold. The JS comparison usage > maxSize * threshold is
in binary floating point; for every integer usage it agrees with this
exact rational comparison: on the constrained tier the float product is
1468006.3999999999..., which lies strictly between the same consecutive
integers as the exact 1468006.4, and on the standard tier the float
product rounds to exactly 4718592, the exact value. -/
def isNearQuota (isIOS : Bool) (store : List (String × String)) : Bool :=
  decide (10 * getUsage store > quotaBytes isIOS * thresholdTenths isIOS)

/-- A namespace whose total usage sits exactly at the standard-tier
boundary: 5242880 * 0.9 = 4718592 = 1 + 4718591. -/
def boundaryStore : List (String × String) :=
  [("k", String.mk (List.replicate 4718591 'a'))]

theorem getUsage_single (k v : String) (hk : k ≠ "") (hv : v ≠ "") :
    getUsage [(k, v)] = k.length + v.length := by
  simp [getUsage, hk, hv]

theorem repl_len (n : Nat) : (String.mk (List.replicate n 'a')).length = n := by
  rw [String.length_mk, List.length_replicate]

theorem usage_boundary : getUsage boundaryStore = 4718592 := by
  have hv : String.mk (List.replicate 4718591 'a') ≠ "" := by
    intro he
    have hl := repl_len 4718591
    rw [he] at hl
    exact absurd hl (by decide)
  have hk : ("k" : String).length = 1 := rfl
  rw [boundaryStore, getUsage_single "k" _ (by decide) hv, hk, repl_len]

/-- C4 counterexample: at a usage exactly equal to the boundary
quota * threshold on the standard tier, isNearQuota returns false,
where the claim says it returns true at the boundary. (On the
constrained tier the boundary 1468006.4 is not an integer, so no usage
sits exactly on it.) -/
theorem C4_boundary_counterexample :
    10 * getUsage boundaryStore = quotaBytes false * thresholdTenths false ∧
      isNearQuota false boundaryStore = false := by
  constructor
  · rw [usage_boundary]; decide
  · rw [isNearQuota, usage_boundary]; decide

/-- C4 amended: isNearQuota is false for every usage at or below the
boundary quota * threshold (in particular at the exact boundary) and
true for every usage strictly above it, on both tiers; usage is what
getUsage computes, the key-plus-value length sum over the pairs whose
key and value are both nonempty. -/
theorem C4_isNearQuota_threshold (isIOS : Bool) (store : List (String × String)) :
    (10 * getUsage store ≤ quotaBytes isIOS * thresholdTenths isIOS →
      isNearQuota isIOS store = false) ∧
    (quotaBytes isIOS * thresholdTenths isIOS < 10 * getUsage store →
      isNearQuota isIOS store = true) := by
  constructor <;> (intro h; simp [isNearQuota]; omega)

/-- Witness for C4 amended at a concrete two-pair namespace on the
constrained tier. -/
theorem C4_isNearQuota_threshold_witness :
    isNearQuota true [("ab", "cd"), ("e", "f")] = false :=
  (C4_isNearQuota_threshold true [("ab", "cd"), ("e", "f")]).1 (by decide)

/-! ## Storage manager: safeSetItem (C5) -/

/-- Outcome of one raw localStorage.setItem call: success, a
quota-exceeded exception (QuotaExceededError, NS_ERROR_DOM_QUOTA_REACHED
or code 22), or any other exception. -/
inductive WriteOutcome
  | ok
  | quotaErr
  | otherErr
  deriving DecidableEq, Repr

/-- Observable actions of safeSetItem, in call order: a raw setItem
attempt, a cleanupOldData call, the handleStorageFull signal, the
cleanup info toast, the generic error toast. -/
inductive SEvent
  | write
  | cleanup
  | storageFull
  | infoToast
  | errorToast
  deriving DecidableEq, Repr

/-- Environment of one safeSetItem call: the outcome of the first raw
write, the value cleanupOldData would return (did it free anything),
and the outcome of the retry write if one happens. The source treats
localStorage.setItem as an external fallible primitive, so its outcomes
are inputs of the model. -/
structure SafeSetEnv where
  attempt1 : WriteOutcome
  cleaned : Bool
  attempt2 : WriteOutcome
  deriving DecidableEq, Repr

/-- safeSetItem (core-scripts.js lines 143-182): returns the boolean
result together with the trace of observable actions. On a
quota-exceeded failure it calls cleanupOldData; only if cleanup freed
something does it retry the write once; on retry failure, or when
cleanup freed nothing, it signals storage full and returns false. Any
other write error shows the generic error toast and returns false. -/
def safeSetItem (env : SafeSetEnv) : Bool × List SEvent :=
  match env.attempt1 with
  | .ok => (true, [.write])
  | .quotaErr =>
    if env.cleaned then
      match env.attempt2 with
      | .ok => (true, [.write, .cleanup, .write, .infoToast])
      | _ => (false, [.write, .cleanup, .write, .storageFull])
    else (false, [.write, .cleanup, .storageFull])
  | .otherErr => (false, [.write, .errorToast])

/-- C5 counterexample: first write fails with quota exceeded and
cleanupOldData frees nothing, so safeSetItem never retries (exactly one
raw write happens, not two), even though a retry would have succeeded
in this environment. The claim says the write is retried exactly once
on any quota-exceeded failure. -/
theorem C5_no_retry_counterexample :
    safeSetItem ⟨.quotaErr, false, .ok⟩ = (false, [.write, .cleanup, .storageFull]) ∧
      (safeSetItem ⟨.quotaErr, false, .ok⟩).2.count .write = 1 := by
  decide

/-- C5 amended: on any quota-exceeded failure safeSetItem runs
cleanupOldData exactly once; if cleanup freed something it retries the
write exactly once (two raw writes in total) and signals storage full
whenever it returns false; if cleanup freed nothing it returns false
with exactly one raw write and signals storage full without retrying;
in every false-returning quota case the storage-full condition is
signalled, never a silent drop. -/
theorem C5_quota_cleanup_retry (env : SafeSetEnv) (hq : env.attempt1 = .quotaErr) :
    (safeSetItem env).2.count .cleanup = 1 ∧
    (env.cleaned = true → (safeSetItem env).2.count .write = 2) ∧
    (env.cleaned = false →
      (safeSetItem env).1 = false ∧ (safeSetItem env).2.count .write = 1) ∧
    ((safeSetItem env).1 = false → .storageFull ∈ (safeSetItem env).2) := by
  obtain ⟨a1, c, a2⟩ := env
  cases a1 <;> simp_all [safeSetItem]
  cases c <;> cases a2 <;> simp_all

/-- Witness for C5 amended: quota failure, successful cleanup, failing
retry. -/
theorem C5_quota_cleanup_retry_witness :
    (safeSetItem ⟨.quotaErr, true, .quotaErr⟩).2.count .write = 2 ∧
      (safeSetItem ⟨.quotaErr, true, .quotaErr⟩).1 = false ∧
      .storageFull ∈ (safeSetItem ⟨.quotaErr, true, .quotaErr⟩).2 :=
  ⟨(C5_quota_cleanup_retry ⟨.quotaErr, true, .quotaErr⟩ rfl).2.1 rfl, by decide,
    (C5_quota_cleanup_retry ⟨.quotaErr, true, .quotaErr⟩ rfl).2.2.2 (by decide)⟩

/-! ## The stored data model (shared by cleanupOldData and the codec) -/

/-- Result of reading one localStorage key and JSON-parsing it: corrupt
when the stored text makes JSON.parse throw, otherwise the parsed
value. An absent key is identified with the parse of the default empty
object, since the export path reads every such key with a default of
the empty object or array, and the cleanup path skips absent keys,
whose content is unchanged either way. -/
inductive Stored (α : Type)
  | corrupt
  | val (a : α)
  deriving DecidableEq, Repr

/-- One water or protein history entry as stored under history_water or
history_protein: an object with a numeric amount and a timestamp
string. The app writes integer amounts; fractional numbers do not
occur in the stored model. -/
structure SEntry where
  amount : Int
  timestamp : String
  deriving DecidableEq, Repr

/-- One per-type workout state as stored under workout_state. -/
structure SWorkoutState where
  completed : Bool
  order : Int
  deriving DecidableEq, Repr

/-- One workout history entry as stored under workout_history. -/
structure SWorkoutEntry where
  type : String
  count : Int
  timestamp : String
  deriving DecidableEq, Repr

/-- One habit as stored under habits_data: name and color may be absent
(placeholder habits carry only a history); the history maps a date key
to a status string. -/
structure SHabit where
  name : Option String
  color : Option String
  history : List (String × String)
  deriving DecidableEq, Repr

/-- The localStorage keys the backup subsystem touches. A goal, intake
or settings key holds the raw stored string (none when absent); each
JSON-holding key is modelled as its parse result. Objects keyed by
date or workout-type strings are insertion-ordered association lists,
matching JS object key order for these non-numeric string keys. -/
structure RawStore where
  goal_water : Option String
  intake_water : Option String
  goal_protein : Option String
  intake_protein : Option String
  history_water : Stored (List (String × List SEntry))
  history_protein : Stored (List (String × List SEntry))
  workout_state : Stored (List (String × SWorkoutState))
  workout_count : Stored (List (String × Int))
  workout_history : Stored (List (String × List SWorkoutEntry))
  habits_data : Stored (List SHabit)
  app_theme : Option String
  global_reminder : Option String
  deriving DecidableEq, Repr

/-! ## Storage manager: cleanupOldData (C6) -/

/-- Lexicographic character-list comparison, the order JS string
comparison uses (UTF-16 code units; identical to unicode scalar order
on the plane-0 strings involved here). -/
def charsLe : List Char → List Char → Bool
  | [], _ => true
  | _ :: _, [] => false
  | a :: as, b :: bs => if a < b then true else if b < a then false else charsLe as bs

/-- JS default string comparison, used by Array.prototype.sort on the
date keys. -/
def strLe (a b : String) : Bool := charsLe a.data b.data

/-- Core of cleanupOldData for one date-bucketed mapping
(core-scripts.js lines 100-110 and 116-128): sort the keys
lexicographically and, when there are more than daysToKeep of them,
delete the oldest surplus. Returns whether anything was deleted
together with the new mapping; deletion keeps the surviving entries in
their original order, as the JS delete operator does. -/
def cleanupHistory {β : Type} (daysToKeep : Nat) (h : List (String × β)) :
    Bool × List (String × β) :=
  let dates := (h.map Prod.fst).insertionSort (fun a b => strLe a b = true)
  if daysToKeep < dates.length then
    let datesToRemove := dates.take (dates.length - daysToKeep)
    (true, h.filter (fun kv => !(datesToRemove.contains kv.1)))
  else (false, h)

/-- Per-key step of cleanupOldData for the three standard history keys:
a corrupt value makes JSON.parse throw, which the per-key catch
swallows, skipping the key; otherwise the mapping is trimmed and
rewritten only when something was deleted (when nothing was deleted
the trim result equals the old value, so the stored value is the trim
result in both cases). -/
def stepHistory {β : Type} (daysToKeep : Nat) :
    Stored (List (String × β)) → Bool × Stored (List (String × β))
  | .corrupt => (false, .corrupt)
  | .val h => ((cleanupHistory daysToKeep h).1, .val (cleanupHistory daysToKeep h).2)

/-- In-memory trim of one habit by cleanupOldData (lines 100-110). -/
def cleanupHabit (daysToKeep : Nat) (hb : SHabit) : SHabit :=
  { hb with history := (cleanupHistory daysToKeep hb.history).2 }

/-- habits_data step of cleanupOldData (lines 98-115): each habit
history is trimmed in memory; the array is written back iff the shared
cleanedUp flag was set by this key or an earlier one. -/
def stepHabits (daysToKeep : Nat) (flagIn : Bool) :
    Stored (List SHabit) → Bool × Stored (List SHabit)
  | .corrupt => (flagIn, .corrupt)
  | .val hs =>
    let anyTrimmed := hs.any (fun hb => (cleanupHistory daysToKeep hb.history).1)
    let flag := flagIn || anyTrimmed
    (flag, if flag then .val (hs.map (cleanupHabit daysToKeep)) else .val hs)

/-- cleanupOldData (core-scripts.js lines 79-140): processes
history_water, history_protein, workout_history and habits_data in
that order, threading the shared cleanedUp flag; daysToKeep is 30 on
the constrained tier, 90 otherwise. Returns the flag and the updated
store. -/
def cleanupOldData (isIOS : Bool) (s : RawStore) : Bool × RawStore :=
  let daysToKeep := if isIOS then 30 else 90
  let cw := stepHistory daysToKeep s.history_water
  let cp := stepHistory daysToKeep s.history_protein
  let ck := stepHistory daysToKeep s.workout_history
  let ch := stepHabits daysToKeep (cw.1 || cp.1 || ck.1) s.habits_data
  (ch.1,
    { s with
      history_water := cw.2
      history_protein := cp.2
      workout_history := ck.2
      habits_data := ch.2 })

theorem map_fst_filter {β : Type} (p : String → Bool) (h : List (String × β)) :
    (h.filter (fun kv => p kv.1)).map Prod.fst = (h.map Prod.fst).filter p := by
  induction h with
  | nil => rfl
  | cons kv t ih => by_cases hp : p kv.1 <;> simp [List.filter_cons, hp, ih]

/-- cleanupHistory keeps exactly the lexicographically largest
min(daysToKeep, n) date keys: its key list is a permutation of the
sorted key list with the oldest surplus dropped, and never holds more
than daysToKeep keys. -/
theorem cleanupHistory_spec {β : Type} (N : Nat) (h : List (String × β))
    (hnd : (h.map Prod.fst).Nodup) :
    ((cleanupHistory N h).2.map Prod.fst).Perm
        (((h.map Prod.fst).insertionSort (fun a b => strLe a b = true)).drop
          ((h.map Prod.fst).length - N)) ∧
      ((cleanupHistory N h).2.map Prod.fst).length ≤ N := by
  set keys := h.map Prod.fst with hkeys
  set sorted := keys.insertionSort (fun a b => strLe a b = true) with hsorted
  have hperm : sorted.Perm keys := List.perm_insertionSort _ keys
  have hsnd : sorted.Nodup := hperm.nodup_iff.mpr hnd
  have hslen : sorted.length = keys.length := hperm.length_eq
  by_cases hc : N < sorted.length
  · have hres : (cleanupHistory N h).2 =
        h.filter (fun kv => !((sorted.take (sorted.length - N)).contains kv.1)) := by
      simp only [cleanupHistory, ← hsorted, ← hkeys, if_pos hc]
    have hkr : ((cleanupHistory N h).2.map Prod.fst) =
        keys.filter (fun d => !((sorted.take (sorted.length - N)).contains d)) := by
      rw [hres, map_fst_filter (fun d => !((sorted.take (sorted.length - N)).contains d))]
    have hsplit : sorted.take (sorted.length - N) ++ sorted.drop (sorted.length - N) = sorted :=
      List.take_append_drop _ _
    have hnd2 : (sorted.take (sorted.length - N) ++ sorted.drop (sorted.length - N)).Nodup := by
      rw [hsplit]; exact hsnd
    have hdisj := (List.nodup_append.mp hnd2).2.2
    have hdnd : (sorted.drop (sorted.length - N)).Nodup := (List.nodup_append.mp hnd2).2.1
    have hfnd : (keys.filter
        (fun d => !((sorted.take (sorted.length - N)).contains d))).Nodup := hnd.filter _
    have hpm : ((cleanupHistory N h).2.map Prod.fst).Perm (sorted.drop (sorted.length - N)) := by
      rw [hkr]
      refine (List.perm_ext_iff_of_nodup hfnd hdnd).mpr ?_
      intro a
      simp only [List.mem_filter, Bool.not_eq_true']
      constructor
      · rintro ⟨hmem, hp⟩
        have hnotR : a ∉ sorted.take (sorted.length - N) := by simpa using hp
        have hsm : a ∈ sorted := hperm.mem_iff.mpr hmem
        rw [← hsplit] at hsm
        rcases List.mem_append.mp hsm with h1 | h2
        · exact absurd h1 hnotR
        · exact h2
      · intro hd
        have hsm : a ∈ sorted := by rw [← hsplit]; exact List.mem_append_right _ hd
        refine ⟨hperm.mem_iff.mp hsm, ?_⟩
        have hnT : a ∉ sorted.take (sorted.length - N) :=
          fun hT => (List.disjoint_left.mp hdisj hT) hd
        simpa using hnT
    refine ⟨?_, ?_⟩
    · rw [hslen] at hpm; exact hpm
    · rw [hpm.length_eq, List.length_drop]; omega
  · have hres : (cleanupHistory N h).2 = h := by
      simp only [cleanupHistory, ← hsorted, ← hkeys, if_neg hc]
    rw [hres]
    have h0 : keys.length - N = 0 := by omega
    rw [← hkeys, h0, List.drop_zero]
    exact ⟨hperm.symm, by omega⟩

theorem cleanupHistory_not_trimmed {β : Type} (N : Nat) (h : List (String × β))
    (hf : (cleanupHistory N h).1 = false) : (cleanupHistory N h).2 = h := by
  by_cases hc : N < h.length
  · exfalso
    simp [cleanupHistory, hc] at hf
  · simp [cleanupHistory, hc]

/-- After stepHabits the stored habit array is the per-habit trim of
the old one, whether or not the write-back happened (when it did not,
no habit was trimmed and the trim is the identity). -/
theorem stepHabits_val (daysToKeep : Nat) (flagIn : Bool) (hs : List SHabit) :
    (stepHabits daysToKeep flagIn (.val hs)).2 = .val (hs.map (cleanupHabit daysToKeep)) := by
  simp only [stepHabits]
  by_cases hf : (flagIn || hs.any (fun hb => (cleanupHistory daysToKeep hb.history).1)) = true
  · simp [hf]
  · simp only [Bool.not_eq_true] at hf
    simp only [hf, if_neg]
    have hany : hs.any (fun hb => (cleanupHistory daysToKeep hb.history).1) = false :=
      (Bool.or_eq_false_iff.mp hf).2
    rw [List.any_eq_false] at hany
    have hmapid : hs.map (cleanupHabit daysToKeep) = hs := by
      conv_rhs => rw [← List.map_id hs]
      refine List.map_congr_left ?_
      intro hb hmem
      have hone : (cleanupHistory daysToKeep hb.history).1 = false := by
        simpa using hany hb hmem
      show cleanupHabit daysToKeep hb = hb
      simp [cleanupHabit, cleanupHistory_not_trimmed daysToKeep hb.history hone]
    rw [hmapid]
    simp

/-- C6: after cleanupOldData, every date-bucketed history key
(history_water, history_protein, workout_history, and each habit
history inside habits_data) holds at most daysToKeep distinct dates
(30 on the constrained tier, 90 otherwise), and the dates retained are
exactly the lexicographically most recent min(daysToKeep, n) of the
original n. -/
theorem C6_cleanup_retention (isIOS : Bool) (s : RawStore) :
    (∀ h, s.history_water = .val h → (h.map Prod.fst).Nodup →
      (cleanupOldData isIOS s).2.history_water =
          .val (cleanupHistory (if isIOS then 30 else 90) h).2 ∧
        (((cleanupHistory (if isIOS then 30 else 90) h).2.map Prod.fst).Perm
          (((h.map Prod.fst).insertionSort (fun a b => strLe a b = true)).drop
            ((h.map Prod.fst).length - (if isIOS then 30 else 90)))) ∧
        ((cleanupHistory (if isIOS then 30 else 90) h).2.map Prod.fst).length ≤
          (if isIOS then 30 else 90)) ∧
    (∀ h, s.history_protein = .val h → (h.map Prod.fst).Nodup →
      (cleanupOldData isIOS s).2.history_protein =
          .val (cleanupHistory (if isIOS then 30 else 90) h).2 ∧
        (((cleanupHistory (if isIOS then 30 else 90) h).2.map Prod.fst).Perm
          (((h.map Prod.fst).insertionSort (fun a b => strLe a b = true)).drop
            ((h.map Prod.fst).length - (if isIOS then 30 else 90)))) ∧
        ((cleanupHistory (if isIOS then 30 else 90) h).2.map Prod.fst).length ≤
          (if isIOS then 30 else 90)) ∧
    (∀ h, s.workout_history = .val h → (h.map Prod.fst).Nodup →
      (cleanupOldData isIOS s).2.workout_history =
          .val (cleanupHistory (if isIOS then 30 else 90) h).2 ∧
        (((cleanupHistory (if isIOS then 30 else 90) h).2.map Prod.fst).Perm
          (((h.map Prod.fst).insertionSort (fun a b => strLe a b = true)).drop
            ((h.map Prod.fst).length - (if isIOS then 30 else 90)))) ∧
        ((cleanupHistory (if isIOS then 30 else 90) h).2.map Prod.fst).length ≤
          (if isIOS then 30 else 90)) ∧
    (∀ hs, s.habits_data = .val hs →
      (cleanupOldData isIOS s).2.habits_data =
          .val (hs.map (cleanupHabit (if isIOS then 30 else 90))) ∧
        ∀ hb ∈ hs, (hb.history.map Prod.fst).Nodup →
          (((cleanupHabit (if isIOS then 30 else 90) hb).history.map Prod.fst).Perm
            (((hb.history.map Prod.fst).insertionSort (fun a b => strLe a b = true)).drop
              ((hb.history.map Prod.fst).length - (if isIOS then 30 else 90)))) ∧
          ((cleanupHabit (if isIOS then 30 else 90) hb).history.map Prod.fst).length ≤
            (if isIOS then 30 else 90)) := by
  refine ⟨?_, ?_, ?_, ?_⟩
  · intro h hval hnd
    refine ⟨?_, (cleanupHistory_spec _ h hnd).1, (cleanupHistory_spec _ h hnd).2⟩
    simp [cleanupOldData, hval, stepHistory]
  · intro h hval hnd
    refine ⟨?_, (cleanupHistory_spec _ h hnd).1, (cleanupHistory_spec _ h hnd).2⟩
    simp [cleanupOldData, hval, stepHistory]
  · intro h hval hnd
    refine ⟨?_, (cleanupHistory_spec _ h hnd).1, (cleanupHistory_spec _ h hnd).2⟩
    simp [cleanupOldData, hval, stepHistory]
  · intro hs hval
    constructor
    · simp only [cleanupOldData, hval]
      exact stepHabits_val _ _ hs
    · intro hb hmem hnd
      exact ⟨(cleanupHistory_spec _ hb.history hnd).1, (cleanupHistory_spec _ hb.history hnd).2⟩

/-- A habit with thirty-one distinct dates, for the C6 witness. -/
def witnessHabit : SHabit :=
  ⟨some "walk", some "#4CAF50",
    (List.range 31).map (fun i => (String.mk ('d' :: Nat.toDigits 10 (100 + i)), "true"))⟩

/-- Witness store for C6 on the constrained tier: the water history
holds three dates (kept in full), the workout history is corrupt
(skipped), and the single habit holds thirty-one dates, trimmed to the
thirty lexicographically largest. -/
def cleanupWitnessStore : RawStore where
  goal_water := some "2000"
  intake_water := some "500"
  goal_protein := none
  intake_protein := none
  history_water := .val [("2024-01-03", []), ("2024-01-01", []), ("2024-01-02", [])]
  history_protein := .val []
  workout_state := .val []
  workout_count := .val []
  workout_history := .corrupt
  habits_data := .val [witnessHabit]
  app_theme := none
  global_reminder := none

theorem C6_cleanup_retention_witness :
    (cleanupOldData true cleanupWitnessStore).2.history_water =
        .val [("2024-01-03", []), ("2024-01-01", []), ("2024-01-02", [])] ∧
      ((cleanupHabit 30 witnessHabit).history.map Prod.fst).length ≤ 30 := by
  have h := C6_cleanup_retention true cleanupWitnessStore
  refine ⟨?_, ?_⟩
  · have h1 := (h.1 [("2024-01-03", []), ("2024-01-01", []), ("2024-01-02", [])]
      (by decide) (by decide)).1
    simpa using h1
  · have h4 := (h.2.2.2 [witnessHabit] rfl).2 witnessHabit (by decide) (by decide)
    simpa using h4.2

/-! ## Data import: performDataImport (C7, C10) -/

/-- JS truthiness of an optional string field: null, undefined and the
empty string are falsy, every other string is truthy. -/
def truthy : Option String → Bool
  | none => false
  | some s => s != ""

/-- JS truthiness of a serialized-object field of the import payload:
the source stores the JSON.stringify text of the parsed value, which
is a nonempty string whenever the field is present; none stands for a
field that is null, undefined or the empty string, all falsy. -/
def truthyVal {α : Type} : Option α → Bool
  | none => false
  | some _ => true

/-- Environment of one import run: the outcome of each raw
localStorage.setItem attempt made inside safeSetItem, keyed by the
storage key (performDataImport passes each key to safeSetItem at most
once), and the device tier the embedded cleanupOldData call runs
under. attempt1 is the direct write, attempt2 the retry after a
successful cleanup. -/
structure ImportEnv where
  attempt1 : String → WriteOutcome
  attempt2 : String → WriteOutcome
  isIOS : Bool

/-- safeSetItem (core-scripts.js lines 143-182) as performDataImport
calls it, on the parsed store view: a successful first attempt applies
the write; a quota-exceeded first attempt runs cleanupOldData on the
current store and, when the cleanup trimmed something, retries the
write once, returning false when the retry also fails; when the
cleanup trimmed nothing, or on any non-quota error, no retry happens
and the result is false. The store returned by a failing call keeps
the mutations cleanupOldData made. handleStorageFull and the toasts
only notify (lines 163-192) and are not modelled here; C5 covers the
signalling of one call in isolation. -/
def impSafeSet (env : ImportEnv) (key : String) (w : RawStore → RawStore)
    (s : RawStore) : Bool × RawStore :=
  match env.attempt1 key with
  | .ok => (true, w s)
  | .quotaErr =>
    let c := cleanupOldData env.isIOS s
    if c.1 then
      match env.attempt2 key with
      | .ok => (true, w c.2)
      | _ => (false, c.2)
    else (false, c.2)
  | .otherErr => (false, s)

/-- One checked field application of performDataImport (lines 694-752):
skip when the field is falsy; otherwise call safeSetItem, and when it
returns false throw the field-specific error, which the catch at lines
764-768 reports before returning false. The state threaded through
the import is the thrown message (none so far), the store, and the
log of keys safeSetItem has been invoked on, in call order. -/
def impStepChecked (env : ImportEnv) (key msg : String) (present : Bool)
    (w : RawStore → RawStore) (s : RawStore) (log : List String) :
    Option String × RawStore × List String :=
  if present then
    let r := impSafeSet env key w s
    if r.1 then (none, r.2, log ++ [key]) else (some msg, r.2, log ++ [key])
  else (none, s, log)

/-- One unchecked settings write (lines 755-760): the boolean result of
safeSetItem is ignored, so a failure neither throws nor stops
the import, but the call is still made and any cleanup it triggers
still mutates the store. -/
def impStepUnchecked (env : ImportEnv) (key : String) (present : Bool)
    (w : RawStore → RawStore) (s : RawStore) (log : List String) :
    RawStore × List String :=
  if present then ((impSafeSet env key w s).2, log ++ [key]) else (s, log)

/-- Sequencing with early exit: once a field has thrown, the remaining
steps are skipped and the state stays as it was at the throw. -/
def impSeq : Option String × RawStore × List String →
    (RawStore → List String → Option String × RawStore × List String) →
    Option String × RawStore × List String
  | (some e, s, log), _ => (some e, s, log)
  | (none, s, log), f => f s log

/-- The water or protein sub-object of the parsed import payload: goal
and intake are raw strings, the history is the parsed content of the
serialized history object the source passes to safeSetItem. -/
structure ImpDomain where
  goal : Option String
  intake : Option String
  history : Option (List (String × List SEntry))
  deriving DecidableEq, Repr

/-- The workout sub-object (may be absent as a whole, line 729), with
each field the parsed content of its serialized value. -/
structure ImpWorkout where
  state : Option (List (String × SWorkoutState))
  count : Option (List (String × Int))
  history : Option (List (String × List SWorkoutEntry))
  deriving DecidableEq, Repr

/-- The habits sub-object (line 748 guards both the object and its data
field). -/
structure ImpHabits where
  data : Option (List SHabit)
  deriving DecidableEq, Repr

/-- The settings sub-object (lines 755-760 guard the object and each
field). -/
structure ImpSettings where
  theme : Option String
  reminder : Option String
  deriving DecidableEq, Repr

/-- The parsed import payload as performDataImport consumes it. The
source reads water and protein unconditionally (a payload without them
throws before any write; parseCSVData always provides them), and
guards workout, habits and settings. -/
structure ImpData where
  water : ImpDomain
  protein : ImpDomain
  workout : Option ImpWorkout
  habits : Option ImpHabits
  settings : Option ImpSettings
  deriving DecidableEq, Repr

/-- performDataImport (core-scripts.js lines 685-769) on the parsed
store view, with the in-memory backup loop omitted (it does not
influence the result or the store). The result is the thrown failure
message of the import (none on success), the final store, and the
log of keys passed to safeSetItem. -/
def performDataImport (env : ImportEnv) (d : ImpData) (s : RawStore) :
    Option String × RawStore × List String :=
  impSeq (impStepChecked env "goal_water" "Failed to import water goal"
      (truthy d.water.goal) (fun s => { s with goal_water := d.water.goal }) s [])
    fun s log =>
  impSeq (impStepChecked env "intake_water" "Failed to import water intake"
      (truthy d.water.intake) (fun s => { s with intake_water := d.water.intake }) s log)
    fun s log =>
  impSeq (impStepChecked env "history_water" "Failed to import water history"
      (truthyVal d.water.history)
      (fun s => { s with history_water := .val (d.water.history.getD []) }) s log)
    fun s log =>
  impSeq (impStepChecked env "goal_protein" "Failed to import protein goal"
      (truthy d.protein.goal) (fun s => { s with goal_protein := d.protein.goal }) s log)
    fun s log =>
  impSeq (impStepChecked env "intake_protein" "Failed to import protein intake"
      (truthy d.protein.intake) (fun s => { s with intake_protein := d.protein.intake }) s log)
    fun s log =>
  impSeq (impStepChecked env "history_protein" "Failed to import protein history"
      (truthyVal d.protein.history)
      (fun s => { s with history_protein := .val (d.protein.history.getD []) }) s log)
    fun s log =>
  impSeq (match d.workout with
    | none => (none, s, log)
    | some wk =>
      impSeq (impStepChecked env "workout_state" "Failed to import workout state"
          (truthyVal wk.state)
          (fun s => { s with workout_state := .val (wk.state.getD []) }) s log)
        fun s log =>
      impSeq (impStepChecked env "workout_count" "Failed to import workout count"
          (truthyVal wk.count)
          (fun s => { s with workout_count := .val (wk.count.getD []) }) s log)
        fun s log =>
      impStepChecked env "workout_history" "Failed to import workout history"
        (truthyVal wk.history)
        (fun s => { s with workout_history := .val (wk.history.getD []) }) s log)
    fun s log =>
  impSeq (match d.habits with
    | none => (none, s, log)
    | some hb =>
      impStepChecked env "habits_data" "Failed to import habits data" (truthyVal hb.data)
        (fun s => { s with habits_data := .val (hb.data.getD []) }) s log)
    fun s log =>
  let r1 := match d.settings with
    | none => (s, log)
    | some se => impStepUnchecked env "app_theme" (truthy se.theme)
        (fun s => { s with app_theme := se.theme }) s log
  let r2 := match d.settings with
    | none => r1
    | some se => impStepUnchecked env "global_reminder" (truthy se.reminder)
        (fun s => { s with global_reminder := se.reminder }) r1.1 r1.2
  (none, r2.1, r2.2)

/-- The domain fields performDataImport applies, in application
order. -/
inductive ImpField
  | waterGoal
  | waterIntake
  | waterHistory
  | proteinGoal
  | proteinIntake
  | proteinHistory
  | workoutState
  | workoutCount
  | workoutHistory
  | habitsData
  | theme
  | reminder
  deriving DecidableEq, Repr, Fintype

/-- Storage key of each field. -/
def fieldKey : ImpField → String
  | .waterGoal => "goal_water"
  | .waterIntake => "intake_water"
  | .waterHistory => "history_water"
  | .proteinGoal => "goal_protein"
  | .proteinIntake => "intake_protein"
  | .proteinHistory => "history_protein"
  | .workoutState => "workout_state"
  | .workoutCount => "workout_count"
  | .workoutHistory => "workout_history"
  | .habitsData => "habits_data"
  | .theme => "app_theme"
  | .reminder => "global_reminder"

/-- Error message thrown for each checked field (empty for the two
unchecked settings fields, which throw nothing). -/
def fieldMsg : ImpField → String
  | .waterGoal => "Failed to import water goal"
  | .waterIntake => "Failed to import water intake"
  | .waterHistory => "Failed to import water history"
  | .proteinGoal => "Failed to import protein goal"
  | .proteinIntake => "Failed to import protein intake"
  | .proteinHistory => "Failed to import protein history"
  | .workoutState => "Failed to import workout state"
  | .workoutCount => "Failed to import workout count"
  | .workoutHistory => "Failed to import workout history"
  | .habitsData => "Failed to import habits data"
  | .theme => ""
  | .reminder => ""

/-- Application order of the fields. -/
def fieldRank : ImpField → Nat
  | .waterGoal => 0
  | .waterIntake => 1
  | .waterHistory => 2
  | .proteinGoal => 3
  | .proteinIntake => 4
  | .proteinHistory => 5
  | .workoutState => 6
  | .workoutCount => 7
  | .workoutHistory => 8
  | .habitsData => 9
  | .theme => 10
  | .reminder => 11

/-- Whether the write result of the field is checked (all domain fields
are; the settings fields are not). -/
def fieldChecked : ImpField → Bool
  | .theme => false
  | .reminder => false
  | _ => true

/-- Whether performDataImport applies the field: the JS truthiness of
its value, false when an enclosing sub-object is absent. -/
def appliedPresent (d : ImpData) : ImpField → Bool
  | .waterGoal => truthy d.water.goal
  | .waterIntake => truthy d.water.intake
  | .waterHistory => truthyVal d.water.history
  | .proteinGoal => truthy d.protein.goal
  | .proteinIntake => truthy d.protein.intake
  | .proteinHistory => truthyVal d.protein.history
  | .workoutState => match d.workout with | none => false | some wk => truthyVal wk.state
  | .workoutCount => match d.workout with | none => false | some wk => truthyVal wk.count
  | .workoutHistory => match d.workout with | none => false | some wk => truthyVal wk.history
  | .habitsData => match d.habits with | none => false | some hb => truthyVal hb.data
  | .theme => match d.settings with | none => false | some se => truthy se.theme
  | .reminder => match d.settings with | none => false | some se => truthy se.reminder

/-- Whether two stores agree on the component a field's key names, as
a decidable comparison: used to state that an import run leaves a
given field's stored value unchanged. -/
def unchangedAt : ImpField → RawStore → RawStore → Bool
  | .waterGoal, s1, s2 => decide (s1.goal_water = s2.goal_water)
  | .waterIntake, s1, s2 => decide (s1.intake_water = s2.intake_water)
  | .waterHistory, s1, s2 => decide (s1.history_water = s2.history_water)
  | .proteinGoal, s1, s2 => decide (s1.goal_protein = s2.goal_protein)
  | .proteinIntake, s1, s2 => decide (s1.intake_protein = s2.intake_protein)
  | .proteinHistory, s1, s2 => decide (s1.history_protein = s2.history_protein)
  | .workoutState, s1, s2 => decide (s1.workout_state = s2.workout_state)
  | .workoutCount, s1, s2 => decide (s1.workout_count = s2.workout_count)
  | .workoutHistory, s1, s2 => decide (s1.workout_history = s2.workout_history)
  | .habitsData, s1, s2 => decide (s1.habits_data = s2.habits_data)
  | .theme, s1, s2 => decide (s1.app_theme = s2.app_theme)
  | .reminder, s1, s2 => decide (s1.global_reminder = s2.global_reminder)

theorem fieldKey_inj : ∀ g h : ImpField, fieldKey g = fieldKey h → g = h := by decide

theorem key_ne_of_rank_lt (g h : ImpField) (hr : fieldRank h < fieldRank g) :
    fieldKey g ≠ fieldKey h := by
  intro he
  cases fieldKey_inj g h he
  exact Nat.lt_irrefl _ hr

theorem impSeq_none (s : RawStore) (log : List String)
    (f : RawStore → List String → Option String × RawStore × List String) :
    impSeq (none, s, log) f = f s log := rfl

theorem impSeq_some (e : String) (s : RawStore) (log : List String)
    (f : RawStore → List String → Option String × RawStore × List String) :
    impSeq (some e, s, log) f = (some e, s, log) := rfl

theorem stepChecked_skip (env : ImportEnv) (k m : String) (w : RawStore → RawStore)
    (s : RawStore) (log : List String) :
    impStepChecked env k m false w s log = (none, s, log) := rfl

theorem stepChecked_ok1 (env : ImportEnv) (k m : String) (w : RawStore → RawStore)
    (s : RawStore) (log : List String) (h : env.attempt1 k = .ok) :
    impStepChecked env k m true w s log = (none, w s, log ++ [k]) := by
  simp [impStepChecked, impSafeSet, h]

theorem stepChecked_okAny (env : ImportEnv) (k m : String) (p : Bool)
    (w : RawStore → RawStore) (s : RawStore) (log : List String)
    (h : p = true → env.attempt1 k = .ok) :
    ∃ s2 ks, impStepChecked env k m p w s log = (none, s2, log ++ ks) ∧
      ∀ x ∈ ks, x = k := by
  cases p
  · exact ⟨s, [], by simp [stepChecked_skip], by simp⟩
  · exact ⟨w s, [k], stepChecked_ok1 env k m w s log (h rfl), by simp⟩

theorem stepChecked_fail (env : ImportEnv) (k m : String) (w : RawStore → RawStore)
    (s : RawStore) (log : List String) (h1 : env.attempt1 k = .quotaErr)
    (h2 : env.attempt2 k ≠ .ok) :
    impStepChecked env k m true w s log =
      (some m, (cleanupOldData env.isIOS s).2, log ++ [k]) := by
  cases ha : env.attempt2 k with
  | ok => exact absurd ha h2
  | quotaErr =>
    by_cases hc : (cleanupOldData env.isIOS s).1 <;>
      simp [impStepChecked, impSafeSet, h1, ha, hc]
  | otherErr =>
    by_cases hc : (cleanupOldData env.isIOS s).1 <;>
      simp [impStepChecked, impSafeSet, h1, ha, hc]

theorem stepChecked_log (env : ImportEnv) (k m : String) (p : Bool)
    (w : RawStore → RawStore) (s : RawStore) (log : List String) :
    ∃ ks, (impStepChecked env k m p w s log).2.2 = log ++ ks ∧ ∀ x ∈ ks, x = k := by
  cases p
  · exact ⟨[], by simp [stepChecked_skip], by simp⟩
  · refine ⟨[k], ?_, by simp⟩
    by_cases hr : (impSafeSet env k w s).1 <;> simp [impStepChecked, hr]

theorem stepChecked_store (env : ImportEnv) (k m : String) (p : Bool)
    (w : RawStore → RawStore) (s : RawStore) (log : List String)
    (hp : p = true → env.attempt1 k ≠ .quotaErr) :
    (impStepChecked env k m p w s log).2.1 = s ∨
      (impStepChecked env k m p w s log).2.1 = w s := by
  cases p
  · exact Or.inl (by simp [stepChecked_skip])
  · cases ha : env.attempt1 k with
    | ok => exact Or.inr (by simp [impStepChecked, impSafeSet, ha])
    | quotaErr => exact absurd ha (hp rfl)
    | otherErr => exact Or.inl (by simp [impStepChecked, impSafeSet, ha])

theorem stepUnchecked_log (env : ImportEnv) (k : String) (p : Bool)
    (w : RawStore → RawStore) (s : RawStore) (log : List String) :
    ∃ ks, (impStepUnchecked env k p w s log).2 = log ++ ks ∧ ∀ x ∈ ks, x = k := by
  cases p
  · exact ⟨[], by simp [impStepUnchecked], by simp⟩
  · exact ⟨[k], by simp [impStepUnchecked], by simp⟩

theorem stepUnchecked_store (env : ImportEnv) (k : String) (p : Bool)
    (w : RawStore → RawStore) (s : RawStore) (log : List String)
    (hp : p = true → env.attempt1 k ≠ .quotaErr) :
    (impStepUnchecked env k p w s log).1 = s ∨
      (impStepUnchecked env k p w s log).1 = w s := by
  cases p
  · exact Or.inl (by simp [impStepUnchecked])
  · cases ha : env.attempt1 k with
    | ok => exact Or.inr (by simp [impStepUnchecked, impSafeSet, ha])
    | quotaErr => exact absurd ha (hp rfl)
    | otherErr => exact Or.inl (by simp [impStepUnchecked, impSafeSet, ha])

theorem impSeq_pres (P : RawStore → List String → Prop)
    (r : Option String × RawStore × List String)
    (F : RawStore → List String → Option String × RawStore × List String)
    (h1 : P r.2.1 r.2.2)
    (h2 : ∀ s log, P s log → P (F s log).2.1 (F s log).2.2) :
    P (impSeq r F).2.1 (impSeq r F).2.2 := by
  obtain ⟨e, s, log⟩ := r
  cases e with
  | none => exact h2 s log h1
  | some e => exact h1

theorem unchangedAt_refl (f : ImpField) (s : RawStore) : unchangedAt f s s = true := by
  cases f <;> simp [unchangedAt]

theorem unchangedAt_trans (f : ImpField) (a b c : RawStore)
    (h1 : unchangedAt f a b = true) (h2 : unchangedAt f b c = true) :
    unchangedAt f a c = true := by
  cases f <;>
    simp only [unchangedAt, decide_eq_true_eq] at h1 h2 ⊢ <;>
    exact h1.trans h2

theorem unchangedAt_set_goal_water (f : ImpField) (hf : f ≠ .waterGoal) (s : RawStore)
    (v : Option String) : unchangedAt f s { s with goal_water := v } = true := by
  cases f
  · exact absurd rfl hf
  all_goals simp [unchangedAt]

theorem unchangedAt_set_intake_water (f : ImpField) (hf : f ≠ .waterIntake) (s : RawStore)
    (v : Option String) : unchangedAt f s { s with intake_water := v } = true := by
  cases f
  case waterIntake => exact absurd rfl hf
  all_goals simp [unchangedAt]

theorem unchangedAt_set_history_water (f : ImpField) (hf : f ≠ .waterHistory) (s : RawStore)
    (v : Stored (List (String × List SEntry))) :
    unchangedAt f s { s with history_water := v } = true := by
  cases f
  case waterHistory => exact absurd rfl hf
  all_goals simp [unchangedAt]

theorem unchangedAt_set_goal_protein (f : ImpField) (hf : f ≠ .proteinGoal) (s : RawStore)
    (v : Option String) : unchangedAt f s { s with goal_protein := v } = true := by
  cases f
  case proteinGoal => exact absurd rfl hf
  all_goals simp [unchangedAt]

theorem unchangedAt_set_intake_protein (f : ImpField) (hf : f ≠ .proteinIntake) (s : RawStore)
    (v : Option String) : unchangedAt f s { s with intake_protein := v } = true := by
  cases f
  case proteinIntake => exact absurd rfl hf
  all_goals simp [unchangedAt]

theorem unchangedAt_set_history_protein (f : ImpField) (hf : f ≠ .proteinHistory) (s : RawStore)
    (v : Stored (List (String × List SEntry))) :
    unchangedAt f s { s with history_protein := v } = true := by
  cases f
  case proteinHistory => exact absurd rfl hf
  all_goals simp [unchangedAt]

theorem unchangedAt_set_workout_state (f : ImpField) (hf : f ≠ .workoutState) (s : RawStore)
    (v : Stored (List (String × SWorkoutState))) :
    unchangedAt f s { s with workout_state := v } = true := by
  cases f
  case workoutState => exact absurd rfl hf
  all_goals simp [unchangedAt]

theorem unchangedAt_set_workout_count (f : ImpField) (hf : f ≠ .workoutCount) (s : RawStore)
    (v : Stored (List (String × Int))) :
    unchangedAt f s { s with workout_count := v } = true := by
  cases f
  case workoutCount => exact absurd rfl hf
  all_goals simp [unchangedAt]

theorem unchangedAt_set_workout_history (f : ImpField) (hf : f ≠ .workoutHistory) (s : RawStore)
    (v : Stored (List (String × List SWorkoutEntry))) :
    unchangedAt f s { s with workout_history := v } = true := by
  cases f
  case workoutHistory => exact absurd rfl hf
  all_goals simp [unchangedAt]

theorem unchangedAt_set_habits_data (f : ImpField) (hf : f ≠ .habitsData) (s : RawStore)
    (v : Stored (List SHabit)) : unchangedAt f s { s with habits_data := v } = true := by
  cases f
  case habitsData => exact absurd rfl hf
  all_goals simp [unchangedAt]

theorem unchangedAt_set_app_theme (f : ImpField) (hf : f ≠ .theme) (s : RawStore)
    (v : Option String) : unchangedAt f s { s with app_theme := v } = true := by
  cases f
  case theme => exact absurd rfl hf
  all_goals simp [unchangedAt]

theorem unchangedAt_set_global_reminder (f : ImpField) (hf : f ≠ .reminder) (s : RawStore)
    (v : Option String) : unchangedAt f s { s with global_reminder := v } = true := by
  cases f
  case reminder => exact absurd rfl hf
  all_goals simp [unchangedAt]

/-- One checked step preserves the two C10 invariants for a falsy
field f: its key stays out of the safeSetItem log, and (when no raw
write fails with a quota error, so no cleanup runs) its stored value
stays unchanged. g is the field the step applies. -/
theorem stepChecked_presFalsy (env : ImportEnv) (f g : ImpField) (m : String)
    (p : Bool) (w : RawStore → RawStore) (HQ : Prop) (s0 s1 : RawStore) (log1 : List String)
    (hHQ : HQ → env.attempt1 (fieldKey g) ≠ .quotaErr)
    (hskip : f = g → p = false)
    (hw : f ≠ g → ∀ t, unchangedAt f t (w t) = true)
    (h1 : fieldKey f ∉ log1 ∧ (HQ → unchangedAt f s0 s1 = true)) :
    fieldKey f ∉ (impStepChecked env (fieldKey g) m p w s1 log1).2.2 ∧
      (HQ → unchangedAt f s0 (impStepChecked env (fieldKey g) m p w s1 log1).2.1 = true) := by
  by_cases hfg : f = g
  · cases hfg
    rw [hskip rfl, stepChecked_skip]
    exact h1
  · constructor
    · obtain ⟨ks, hks, hall⟩ := stepChecked_log env (fieldKey g) m p w s1 log1
      rw [hks]
      intro hmem
      rcases List.mem_append.mp hmem with h | h
      · exact h1.1 h
      · exact hfg (fieldKey_inj f g (hall _ h))
    · intro hq
      rcases stepChecked_store env (fieldKey g) m p w s1 log1 (fun _ => hHQ hq) with h | h
      · rw [h]; exact h1.2 hq
      · rw [h]; exact unchangedAt_trans f s0 s1 (w s1) (h1.2 hq) (hw hfg s1)

/-- One unchecked settings step preserves the same two invariants. -/
theorem stepUnchecked_presFalsy (env : ImportEnv) (f g : ImpField)
    (p : Bool) (w : RawStore → RawStore) (HQ : Prop) (s0 s1 : RawStore) (log1 : List String)
    (hHQ : HQ → env.attempt1 (fieldKey g) ≠ .quotaErr)
    (hskip : f = g → p = false)
    (hw : f ≠ g → ∀ t, unchangedAt f t (w t) = true)
    (h1 : fieldKey f ∉ log1 ∧ (HQ → unchangedAt f s0 s1 = true)) :
    fieldKey f ∉ (impStepUnchecked env (fieldKey g) p w s1 log1).2 ∧
      (HQ → unchangedAt f s0 (impStepUnchecked env (fieldKey g) p w s1 log1).1 = true) := by
  by_cases hfg : f = g
  · cases hfg
    rw [hskip rfl]
    exact h1
  · constructor
    · obtain ⟨ks, hks, hall⟩ := stepUnchecked_log env (fieldKey g) p w s1 log1
      rw [hks]
      intro hmem
      rcases List.mem_append.mp hmem with h | h
      · exact h1.1 h
      · exact hfg (fieldKey_inj f g (hall _ h))
    · intro hq
      rcases stepUnchecked_store env (fieldKey g) p w s1 log1 (fun _ => hHQ hq) with h | h
      · rw [h]; exact h1.2 hq
      · rw [h]; exact unchangedAt_trans f s0 s1 (w s1) (h1.2 hq) (hw hfg s1)

/-- C10 amended: for every import payload in which a given domain
field is falsy (null, undefined or the empty string), performDataImport
never passes that field's storage key to safeSetItem; and provided no
raw write attempt of the run fails with a quota error (so the
cleanupOldData call embedded in safeSetItem never runs), the key's
stored value is left unchanged. Without that proviso the value can
change: a quota failure on another field's write triggers
cleanupOldData, which trims the history keys (see the
counterexample). -/
theorem C10_falsy_field_untouched (env : ImportEnv) (d : ImpData) (s : RawStore)
    (f : ImpField) (hfal : appliedPresent d f = false) :
    fieldKey f ∉ (performDataImport env d s).2.2 ∧
      ((∀ k, env.attempt1 k ≠ .quotaErr) →
        unchangedAt f s (performDataImport env d s).2.1 = true) := by
  unfold performDataImport
  refine impSeq_pres (fun st lg => fieldKey f ∉ lg ∧
      ((∀ k, env.attempt1 k ≠ .quotaErr) → unchangedAt f s st = true)) _ _
    (stepChecked_presFalsy env f .waterGoal _ _ _ _ s s []
      (fun hq => hq _) (fun he => by cases he; exact hfal)
      (fun hne t => unchangedAt_set_goal_water f hne t d.water.goal)
      ⟨List.not_mem_nil _, fun _ => unchangedAt_refl f s⟩)
    (fun s1 log1 h1 => ?_)
  refine impSeq_pres (fun st lg => fieldKey f ∉ lg ∧
      ((∀ k, env.attempt1 k ≠ .quotaErr) → unchangedAt f s st = true)) _ _
    (stepChecked_presFalsy env f .waterIntake _ _ _ _ s s1 log1
      (fun hq => hq _) (fun he => by cases he; exact hfal)
      (fun hne t => unchangedAt_set_intake_water f hne t d.water.intake) h1)
    (fun s2 log2 h2 => ?_)
  refine impSeq_pres (fun st lg => fieldKey f ∉ lg ∧
      ((∀ k, env.attempt1 k ≠ .quotaErr) → unchangedAt f s st = true)) _ _
    (stepChecked_presFalsy env f .waterHistory _ _ _ _ s s2 log2
      (fun hq => hq _) (fun he => by cases he; exact hfal)
      (fun hne t => unchangedAt_set_history_water f hne t (.val (d.water.history.getD []))) h2)
    (fun s3 log3 h3 => ?_)
  refine impSeq_pres (fun st lg => fieldKey f ∉ lg ∧
      ((∀ k, env.attempt1 k ≠ .quotaErr) → unchangedAt f s st = true)) _ _
    (stepChecked_presFalsy env f .proteinGoal _ _ _ _ s s3 log3
      (fun hq => hq _) (fun he => by cases he; exact hfal)
      (fun hne t => unchangedAt_set_goal_protein f hne t d.protein.goal) h3)
    (fun s4 log4 h4 => ?_)
  refine impSeq_pres (fun st lg => fieldKey f ∉ lg ∧
      ((∀ k, env.attempt1 k ≠ .quotaErr) → unchangedAt f s st = true)) _ _
    (stepChecked_presFalsy env f .proteinIntake _ _ _ _ s s4 log4
      (fun hq => hq _) (fun he => by cases he; exact hfal)
      (fun hne t => unchangedAt_set_intake_protein f hne t d.protein.intake) h4)
    (fun s5 log5 h5 => ?_)
  refine impSeq_pres (fun st lg => fieldKey f ∉ lg ∧
      ((∀ k, env.attempt1 k ≠ .quotaErr) → unchangedAt f s st = true)) _ _
    (stepChecked_presFalsy env f .proteinHistory _ _ _ _ s s5 log5
      (fun hq => hq _) (fun he => by cases he; exact hfal)
      (fun hne t => unchangedAt_set_history_protein f hne t
        (.val (d.protein.history.getD []))) h5)
    (fun s6 log6 h6 => ?_)
  refine impSeq_pres (fun st lg => fieldKey f ∉ lg ∧
      ((∀ k, env.attempt1 k ≠ .quotaErr) → unchangedAt f s st = true)) _ _
    ?_ (fun s7 log7 h7 => ?_)
  · cases hwo : d.workout with
    | none => exact h6
    | some wk =>
      refine impSeq_pres (fun st lg => fieldKey f ∉ lg ∧
          ((∀ k, env.attempt1 k ≠ .quotaErr) → unchangedAt f s st = true)) _ _
        (stepChecked_presFalsy env f .workoutState _ _ _ _ s s6 log6
          (fun hq => hq _)
          (fun he => by cases he; simp only [appliedPresent, hwo] at hfal; exact hfal)
          (fun hne t => unchangedAt_set_workout_state f hne t (.val (wk.state.getD []))) h6)
        (fun s6a log6a h6a => ?_)
      refine impSeq_pres (fun st lg => fieldKey f ∉ lg ∧
          ((∀ k, env.attempt1 k ≠ .quotaErr) → unchangedAt f s st = true)) _ _
        (stepChecked_presFalsy env f .workoutCount _ _ _ _ s s6a log6a
          (fun hq => hq _)
          (fun he => by cases he; simp only [appliedPresent, hwo] at hfal; exact hfal)
          (fun hne t => unchangedAt_set_workout_count f hne t (.val (wk.count.getD []))) h6a)
        (fun s6b log6b h6b => ?_)
      exact stepChecked_presFalsy env f .workoutHistory _ _ _ _ s s6b log6b
        (fun hq => hq _)
        (fun he => by cases he; simp only [appliedPresent, hwo] at hfal; exact hfal)
        (fun hne t => unchangedAt_set_workout_history f hne t (.val (wk.history.getD []))) h6b
  · refine impSeq_pres (fun st lg => fieldKey f ∉ lg ∧
        ((∀ k, env.attempt1 k ≠ .quotaErr) → unchangedAt f s st = true)) _ _
      ?_ (fun s8 log8 h8 => ?_)
    · cases hhb : d.habits with
      | none => exact h7
      | some hb =>
        exact stepChecked_presFalsy env f .habitsData _ _ _ _ s s7 log7
          (fun hq => hq _)
          (fun he => by cases he; simp only [appliedPresent, hhb] at hfal; exact hfal)
          (fun hne t => unchangedAt_set_habits_data f hne t (.val (hb.data.getD []))) h7
    · cases hse : d.settings with
      | none => exact h8
      | some se =>
        exact stepUnchecked_presFalsy env f .reminder _ _ _ s _ _
          (fun hq => hq _)
          (fun he => by cases he; simp only [appliedPresent, hse] at hfal; exact hfal)
          (fun hne t => unchangedAt_set_global_reminder f hne t se.reminder)
          (stepUnchecked_presFalsy env f .theme _ _ _ s s8 log8
            (fun hq => hq _)
            (fun he => by cases he; simp only [appliedPresent, hse] at hfal; exact hfal)
            (fun hne t => unchangedAt_set_app_theme f hne t se.theme) h8)

/-- C7 amended: for every checked domain field (water and protein
goal, intake and history, workout state, count and history, habits
data), if that field is present, every earlier present checked field's
direct write succeeds, and this field's write fails on its direct
attempt with a quota error and on the retry, then performDataImport
throws the import-failure message named after this field and aborts
the remaining writes: no field ranked after it is ever passed to
safeSetItem. The settings fields theme and reminder are excluded:
their write results are ignored (lines 755-760 never check safeSetItem
there), see the counterexample. -/
theorem C7_checked_write_failure (env : ImportEnv) (d : ImpData) (s : RawStore) (f : ImpField)
    (hck : fieldChecked f = true)
    (hpres : appliedPresent d f = true)
    (hpre : ∀ g, fieldChecked g = true → fieldRank g < fieldRank f →
      appliedPresent d g = true → env.attempt1 (fieldKey g) = .ok)
    (hq : env.attempt1 (fieldKey f) = .quotaErr)
    (hr : env.attempt2 (fieldKey f) ≠ .ok) :
    (performDataImport env d s).1 = some (fieldMsg f) ∧
      ∀ g, fieldRank f < fieldRank g → fieldKey g ∉ (performDataImport env d s).2.2 := by
  cases f with
  | theme => exact absurd hck (by decide)
  | reminder => exact absurd hck (by decide)
  | waterGoal =>
    have hpf : truthy d.water.goal = true := hpres
    have hqf : env.attempt1 "goal_water" = .quotaErr := hq
    have hrf : env.attempt2 "goal_water" ≠ .ok := hr
    unfold performDataImport
    simp only [hpf]
    rw [stepChecked_fail env "goal_water" _ _ _ _ hqf hrf, impSeq_some]
    refine ⟨rfl, fun g hg hmem => ?_⟩
    have hg2 : 0 < fieldRank g := hg
    simp only [List.nil_append, List.mem_append, List.mem_singleton] at hmem
    exact key_ne_of_rank_lt g .waterGoal (Nat.lt_of_le_of_lt (by decide) hg2) hmem
  | waterIntake =>
    obtain ⟨s1, ks1, he1, hk1⟩ := stepChecked_okAny env "goal_water"
      "Failed to import water goal" (truthy d.water.goal)
      (fun t => { t with goal_water := d.water.goal }) s []
      (fun hp => hpre .waterGoal (by decide) (by decide) hp)
    have hpf : truthy d.water.intake = true := hpres
    have hqf : env.attempt1 "intake_water" = .quotaErr := hq
    have hrf : env.attempt2 "intake_water" ≠ .ok := hr
    unfold performDataImport
    simp only [he1, impSeq_none, hpf]
    rw [stepChecked_fail env "intake_water" _ _ _ _ hqf hrf, impSeq_some]
    refine ⟨rfl, fun g hg hmem => ?_⟩
    have hg2 : 1 < fieldRank g := hg
    simp only [List.nil_append, List.mem_append, List.mem_singleton] at hmem
    rcases hmem with (h | h)
    · exact key_ne_of_rank_lt g .waterGoal (Nat.lt_of_le_of_lt (by decide) hg2) (hk1 _ h)
    · exact key_ne_of_rank_lt g .waterIntake (Nat.lt_of_le_of_lt (by decide) hg2) h
  | waterHistory =>
    obtain ⟨s1, ks1, he1, hk1⟩ := stepChecked_okAny env "goal_water"
      "Failed to import water goal" (truthy d.water.goal)
      (fun t => { t with goal_water := d.water.goal }) s []
      (fun hp => hpre .waterGoal (by decide) (by decide) hp)
    obtain ⟨s2, ks2, he2, hk2⟩ := stepChecked_okAny env "intake_water"
      "Failed to import water intake" (truthy d.water.intake)
      (fun t => { t with intake_water := d.water.intake }) s1 ([] ++ ks1)
      (fun hp => hpre .waterIntake (by decide) (by decide) hp)
    have hpf : truthyVal d.water.history = true := hpres
    have hqf : env.attempt1 "history_water" = .quotaErr := hq
    have hrf : env.attempt2 "history_water" ≠ .ok := hr
    unfold performDataImport
    simp only [he1, he2, impSeq_none, hpf]
    rw [stepChecked_fail env "history_water" _ _ _ _ hqf hrf, impSeq_some]
    refine ⟨rfl, fun g hg hmem => ?_⟩
    have hg2 : 2 < fieldRank g := hg
    simp only [List.nil_append, List.mem_append, List.mem_singleton] at hmem
    rcases hmem with ((h | h) | h)
    · exact key_ne_of_rank_lt g .waterGoal (Nat.lt_of_le_of_lt (by decide) hg2) (hk1 _ h)
    · exact key_ne_of_rank_lt g .waterIntake (Nat.lt_of_le_of_lt (by decide) hg2) (hk2 _ h)
    · exact key_ne_of_rank_lt g .waterHistory (Nat.lt_of_le_of_lt (by decide) hg2) h
  | proteinGoal =>
    obtain ⟨s1, ks1, he1, hk1⟩ := stepChecked_okAny env "goal_water"
      "Failed to import water goal" (truthy d.water.goal)
      (fun t => { t with goal_water := d.water.goal }) s []
      (fun hp => hpre .waterGoal (by decide) (by decide) hp)
    obtain ⟨s2, ks2, he2, hk2⟩ := stepChecked_okAny env "intake_water"
      "Failed to import water intake" (truthy d.water.intake)
      (fun t => { t with intake_water := d.water.intake }) s1 ([] ++ ks1)
      (fun hp => hpre .waterIntake (by decide) (by decide) hp)
    obtain ⟨s3, ks3, he3, hk3⟩ := stepChecked_okAny env "history_water"
      "Failed to import water history" (truthyVal d.water.history)
      (fun t => { t with history_water := .val (d.water.history.getD []) }) s2 (([] ++ ks1) ++ ks2)
      (fun hp => hpre .waterHistory (by decide) (by decide) hp)
    have hpf : truthy d.protein.goal = true := hpres
    have hqf : env.attempt1 "goal_protein" = .quotaErr := hq
    have hrf : env.attempt2 "goal_protein" ≠ .ok := hr
    unfold performDataImport
    simp only [he1, he2, he3, impSeq_none, hpf]
    rw [stepChecked_fail env "goal_protein" _ _ _ _ hqf hrf, impSeq_some]
    refine ⟨rfl, fun g hg hmem => ?_⟩
    have hg2 : 3 < fieldRank g := hg
    simp only [List.nil_append, List.mem_append, List.mem_singleton] at hmem
    rcases hmem with (((h | h) | h) | h)
    · exact key_ne_of_rank_lt g .waterGoal (Nat.lt_of_le_of_lt (by decide) hg2) (hk1 _ h)
    · exact key_ne_of_rank_lt g .waterIntake (Nat.lt_of_le_of_lt (by decide) hg2) (hk2 _ h)
    · exact key_ne_of_rank_lt g .waterHistory (Nat.lt_of_le_of_lt (by decide) hg2) (hk3 _ h)
    · exact key_ne_of_rank_lt g .proteinGoal (Nat.lt_of_le_of_lt (by decide) hg2) h
  | proteinIntake =>
    obtain ⟨s1, ks1, he1, hk1⟩ := stepChecked_okAny env "goal_water"
      "Failed to import water goal" (truthy d.water.goal)
      (fun t => { t with goal_water := d.water.goal }) s []
      (fun hp => hpre .waterGoal (by decide) (by decide) hp)
    obtain ⟨s2, ks2, he2, hk2⟩ := stepChecked_okAny env "intake_water"
      "Failed to import water intake" (truthy d.water.intake)
      (fun t => { t with intake_water := d.water.intake }) s1 ([] ++ ks1)
      (fun hp => hpre .waterIntake (by decide) (by decide) hp)
    obtain ⟨s3, ks3, he3, hk3⟩ := stepChecked_okAny env "history_water"
      "Failed to import water history" (truthyVal d.water.history)
      (fun t => { t with history_water := .val (d.water.history.getD []) }) s2 (([] ++ ks1) ++ ks2)
      (fun hp => hpre .waterHistory (by decide) (by decide) hp)
    obtain ⟨s4, ks4, he4, hk4⟩ := stepChecked_okAny env "goal_protein"
      "Failed to import protein goal" (truthy d.protein.goal)
      (fun t => { t with goal_protein := d.protein.goal }) s3 ((([] ++ ks1) ++ ks2) ++ ks3)
      (fun hp => hpre .proteinGoal (by decide) (by decide) hp)
    have hpf : truthy d.protein.intake = true := hpres
    have hqf : env.attempt1 "intake_protein" = .quotaErr := hq
    have hrf : env.attempt2 "intake_protein" ≠ .ok := hr
    unfold performDataImport
    simp only [he1, he2, he3, he4, impSeq_none, hpf]
    rw [stepChecked_fail env "intake_protein" _ _ _ _ hqf hrf, impSeq_some]
    refine ⟨rfl, fun g hg hmem => ?_⟩
    have hg2 : 4 < fieldRank g := hg
    simp only [List.nil_append, List.mem_append, List.mem_singleton] at hmem
    rcases hmem with ((((h | h) | h) | h) | h)
    · exact key_ne_of_rank_lt g .waterGoal (Nat.lt_of_le_of_lt (by decide) hg2) (hk1 _ h)
    · exact key_ne_of_rank_lt g .waterIntake (Nat.lt_of_le_of_lt (by decide) hg2) (hk2 _ h)
    · exact key_ne_of_rank_lt g .waterHistory (Nat.lt_of_le_of_lt (by decide) hg2) (hk3 _ h)
    · exact key_ne_of_rank_lt g .proteinGoal (Nat.lt_of_le_of_lt (by decide) hg2) (hk4 _ h)
    · exact key_ne_of_rank_lt g .proteinIntake (Nat.lt_of_le_of_lt (by decide) hg2) h
  | proteinHistory =>
    obtain ⟨s1, ks1, he1, hk1⟩ := stepChecked_okAny env "goal_water"
      "Failed to import water goal" (truthy d.water.goal)
      (fun t => { t with goal_water := d.water.goal }) s []
      (fun hp => hpre .waterGoal (by decide) (by decide) hp)
    obtain ⟨s2, ks2, he2, hk2⟩ := stepChecked_okAny env "intake_water"
      "Failed to import water intake" (truthy d.water.intake)
      (fun t => { t with intake_water := d.water.intake }) s1 ([] ++ ks1)
      (fun hp => hpre .waterIntake (by decide) (by decide) hp)
    obtain ⟨s3, ks3, he3, hk3⟩ := stepChecked_okAny env "history_water"
      "Failed to import water history" (truthyVal d.water.history)
      (fun t => { t with history_water := .val (d.water.history.getD []) }) s2 (([] ++ ks1) ++ ks2)
      (fun hp => hpre .waterHistory (by decide) (by decide) hp)
    obtain ⟨s4, ks4, he4, hk4⟩ := stepChecked_okAny env "goal_protein"
      "Failed to import protein goal" (truthy d.protein.goal)
      (fun t => { t with goal_protein := d.protein.goal }) s3 ((([] ++ ks1) ++ ks2) ++ ks3)
      (fun hp => hpre .proteinGoal (by decide) (by decide) hp)
    obtain ⟨s5, ks5, he5, hk5⟩ := stepChecked_okAny env "intake_protein"
      "Failed to import protein intake" (truthy d.protein.intake)
      (fun t => { t with intake_protein := d.protein.intake }) s4 (((([] ++ ks1) ++ ks2) ++ ks3) ++ ks4)
      (fun hp => hpre .proteinIntake (by decide) (by decide) hp)
    have hpf : truthyVal d.protein.history = true := hpres
    have hqf : env.attempt1 "history_protein" = .quotaErr := hq
    have hrf : env.attempt2 "history_protein" ≠ .ok := hr
    unfold performDataImport
    simp only [he1, he2, he3, he4, he5, impSeq_none, hpf]
    rw [stepChecked_fail env "history_protein" _ _ _ _ hqf hrf, impSeq_some]
    refine ⟨rfl, fun g hg hmem => ?_⟩
    have hg2 : 5 < fieldRank g := hg
    simp only [List.nil_append, List.mem_append, List.mem_singleton] at hmem
    rcases hmem with (((((h | h) | h) | h) | h) | h)
    · exact key_ne_of_rank_lt g .waterGoal (Nat.lt_of_le_of_lt (by decide) hg2) (hk1 _ h)
    · exact key_ne_of_rank_lt g .waterIntake (Nat.lt_of_le_of_lt (by decide) hg2) (hk2 _ h)
    · exact key_ne_of_rank_lt g .waterHistory (Nat.lt_of_le_of_lt (by decide) hg2) (hk3 _ h)
    · exact key_ne_of_rank_lt g .proteinGoal (Nat.lt_of_le_of_lt (by decide) hg2) (hk4 _ h)
    · exact key_ne_of_rank_lt g .proteinIntake (Nat.lt_of_le_of_lt (by decide) hg2) (hk5 _ h)
    · exact key_ne_of_rank_lt g .proteinHistory (Nat.lt_of_le_of_lt (by decide) hg2) h
  | workoutState =>
    cases hwo : d.workout with
    | none =>
      simp only [appliedPresent, hwo] at hpres
      exact absurd hpres (by decide)
    | some wk =>
      obtain ⟨s1, ks1, he1, hk1⟩ := stepChecked_okAny env "goal_water"
        "Failed to import water goal" (truthy d.water.goal)
        (fun t => { t with goal_water := d.water.goal }) s []
        (fun hp => hpre .waterGoal (by decide) (by decide) hp)
      obtain ⟨s2, ks2, he2, hk2⟩ := stepChecked_okAny env "intake_water"
        "Failed to import water intake" (truthy d.water.intake)
        (fun t => { t with intake_water := d.water.intake }) s1 ([] ++ ks1)
        (fun hp => hpre .waterIntake (by decide) (by decide) hp)
      obtain ⟨s3, ks3, he3, hk3⟩ := stepChecked_okAny env "history_water"
        "Failed to import water history" (truthyVal d.water.history)
        (fun t => { t with history_water := .val (d.water.history.getD []) }) s2 (([] ++ ks1) ++ ks2)
        (fun hp => hpre .waterHistory (by decide) (by decide) hp)
      obtain ⟨s4, ks4, he4, hk4⟩ := stepChecked_okAny env "goal_protein"
        "Failed to import protein goal" (truthy d.protein.goal)
        (fun t => { t with goal_protein := d.protein.goal }) s3 ((([] ++ ks1) ++ ks2) ++ ks3)
        (fun hp => hpre .proteinGoal (by decide) (by decide) hp)
      obtain ⟨s5, ks5, he5, hk5⟩ := stepChecked_okAny env "intake_protein"
        "Failed to import protein intake" (truthy d.protein.intake)
        (fun t => { t with intake_protein := d.protein.intake }) s4 (((([] ++ ks1) ++ ks2) ++ ks3) ++ ks4)
        (fun hp => hpre .proteinIntake (by decide) (by decide) hp)
      obtain ⟨s6, ks6, he6, hk6⟩ := stepChecked_okAny env "history_protein"
        "Failed to import protein history" (truthyVal d.protein.history)
        (fun t => { t with history_protein := .val (d.protein.history.getD []) }) s5 ((((([] ++ ks1) ++ ks2) ++ ks3) ++ ks4) ++ ks5)
        (fun hp => hpre .proteinHistory (by decide) (by decide) hp)
      have hpf : truthyVal wk.state = true := by simp only [appliedPresent, hwo] at hpres; exact hpres
      have hqf : env.attempt1 "workout_state" = .quotaErr := hq
      have hrf : env.attempt2 "workout_state" ≠ .ok := hr
      unfold performDataImport
      simp only [he1, he2, he3, he4, he5, he6, impSeq_none, hwo, hpf]
      rw [stepChecked_fail env "workout_state" _ _ _ _ hqf hrf, impSeq_some, impSeq_some]
      refine ⟨rfl, fun g hg hmem => ?_⟩
      have hg2 : 6 < fieldRank g := hg
      simp only [List.nil_append, List.mem_append, List.mem_singleton] at hmem
      rcases hmem with ((((((h | h) | h) | h) | h) | h) | h)
      · exact key_ne_of_rank_lt g .waterGoal (Nat.lt_of_le_of_lt (by decide) hg2) (hk1 _ h)
      · exact key_ne_of_rank_lt g .waterIntake (Nat.lt_of_le_of_lt (by decide) hg2) (hk2 _ h)
      · exact key_ne_of_rank_lt g .waterHistory (Nat.lt_of_le_of_lt (by decide) hg2) (hk3 _ h)
      · exact key_ne_of_rank_lt g .proteinGoal (Nat.lt_of_le_of_lt (by decide) hg2) (hk4 _ h)
      · exact key_ne_of_rank_lt g .proteinIntake (Nat.lt_of_le_of_lt (by decide) hg2) (hk5 _ h)
      · exact key_ne_of_rank_lt g .proteinHistory (Nat.lt_of_le_of_lt (by decide) hg2) (hk6 _ h)
      · exact key_ne_of_rank_lt g .workoutState (Nat.lt_of_le_of_lt (by decide) hg2) h
  | workoutCount =>
    cases hwo : d.workout with
    | none =>
      simp only [appliedPresent, hwo] at hpres
      exact absurd hpres (by decide)
    | some wk =>
      obtain ⟨s1, ks1, he1, hk1⟩ := stepChecked_okAny env "goal_water"
        "Failed to import water goal" (truthy d.water.goal)
        (fun t => { t with goal_water := d.water.goal }) s []
        (fun hp => hpre .waterGoal (by decide) (by decide) hp)
      obtain ⟨s2, ks2, he2, hk2⟩ := stepChecked_okAny env "intake_water"
        "Failed to import water intake" (truthy d.water.intake)
        (fun t => { t with intake_water := d.water.intake }) s1 ([] ++ ks1)
        (fun hp => hpre .waterIntake (by decide) (by decide) hp)
      obtain ⟨s3, ks3, he3, hk3⟩ := stepChecked_okAny env "history_water"
        "Failed to import water history" (truthyVal d.water.history)
        (fun t => { t with history_water := .val (d.water.history.getD []) }) s2 (([] ++ ks1) ++ ks2)
        (fun hp => hpre .waterHistory (by decide) (by decide) hp)
      obtain ⟨s4, ks4, he4, hk4⟩ := stepChecked_okAny env "goal_protein"
        "Failed to import protein goal" (truthy d.protein.goal)
        (fun t => { t with goal_protein := d.protein.goal }) s3 ((([] ++ ks1) ++ ks2) ++ ks3)
        (fun hp => hpre .proteinGoal (by decide) (by decide) hp)
      obtain ⟨s5, ks5, he5, hk5⟩ := stepChecked_okAny env "intake_protein"
        "Failed to import protein intake" (truthy d.protein.intake)
        (fun t => { t with intake_protein := d.protein.intake }) s4 (((([] ++ ks1) ++ ks2) ++ ks3) ++ ks4)
        (fun hp => hpre .proteinIntake (by decide) (by decide) hp)
      obtain ⟨s6, ks6, he6, hk6⟩ := stepChecked_okAny env "history_protein"
        "Failed to import protein history" (truthyVal d.protein.history)
        (fun t => { t with history_protein := .val (d.protein.history.getD []) }) s5 ((((([] ++ ks1) ++ ks2) ++ ks3) ++ ks4) ++ ks5)
        (fun hp => hpre .proteinHistory (by decide) (by decide) hp)
      obtain ⟨s7, ks7, he7, hk7⟩ := stepChecked_okAny env "workout_state"
        "Failed to import workout state" (truthyVal wk.state)
        (fun t => { t with workout_state := .val (wk.state.getD []) }) s6 (((((([] ++ ks1) ++ ks2) ++ ks3) ++ ks4) ++ ks5) ++ ks6)
        (fun hp => hpre .workoutState (by decide) (by decide) (by simp only [appliedPresent, hwo]; exact hp))
      have hpf : truthyVal wk.count = true := by simp only [appliedPresent, hwo] at hpres; exact hpres
      have hqf : env.attempt1 "workout_count" = .quotaErr := hq
      have hrf : env.attempt2 "workout_count" ≠ .ok := hr
      unfold performDataImport
      simp only [he1, he2, he3, he4, he5, he6, he7, impSeq_none, hwo, hpf]
      rw [stepChecked_fail env "workout_count" _ _ _ _ hqf hrf, impSeq_some, impSeq_some]
      refine ⟨rfl, fun g hg hmem => ?_⟩
      have hg2 : 7 < fieldRank g := hg
      simp only [List.nil_append, List.mem_append, List.mem_singleton] at hmem
      rcases hmem with (((((((h | h) | h) | h) | h) | h) | h) | h)
      · exact key_ne_of_rank_lt g .waterGoal (Nat.lt_of_le_of_lt (by decide) hg2) (hk1 _ h)
      · exact key_ne_of_rank_lt g .waterIntake (Nat.lt_of_le_of_lt (by decide) hg2) (hk2 _ h)
      · exact key_ne_of_rank_lt g .waterHistory (Nat.lt_of_le_of_lt (by decide) hg2) (hk3 _ h)
      · exact key_ne_of_rank_lt g .proteinGoal (Nat.lt_of_le_of_lt (by decide) hg2) (hk4 _ h)
      · exact key_ne_of_rank_lt g .proteinIntake (Nat.lt_of_le_of_lt (by decide) hg2) (hk5 _ h)
      · exact key_ne_of_rank_lt g .proteinHistory (Nat.lt_of_le_of_lt (by decide) hg2) (hk6 _ h)
      · exact key_ne_of_rank_lt g .workoutState (Nat.lt_of_le_of_lt (by decide) hg2) (hk7 _ h)
      · exact key_ne_of_rank_lt g .workoutCount (Nat.lt_of_le_of_lt (by decide) hg2) h
  | workoutHistory =>
    cases hwo : d.workout with
    | none =>
      simp only [appliedPresent, hwo] at hpres
      exact absurd hpres (by decide)
    | some wk =>
      obtain ⟨s1, ks1, he1, hk1⟩ := stepChecked_okAny env "goal_water"
        "Failed to import water goal" (truthy d.water.goal)
        (fun t => { t with goal_water := d.water.goal }) s []
        (fun hp => hpre .waterGoal (by decide) (by decide) hp)
      obtain ⟨s2, ks2, he2, hk2⟩ := stepChecked_okAny env "intake_water"
        "Failed to import water intake" (truthy d.water.intake)
        (fun t => { t with intake_water := d.water.intake }) s1 ([] ++ ks1)
        (fun hp => hpre .waterIntake (by decide) (by decide) hp)
      obtain ⟨s3, ks3, he3, hk3⟩ := stepChecked_okAny env "history_water"
        "Failed to import water history" (truthyVal d.water.history)
        (fun t => { t with history_water := .val (d.water.history.getD []) }) s2 (([] ++ ks1) ++ ks2)
        (fun hp => hpre .waterHistory (by decide) (by decide) hp)
      obtain ⟨s4, ks4, he4, hk4⟩ := stepChecked_okAny env "goal_protein"
        "Failed to import protein goal" (truthy d.protein.goal)
        (fun t => { t with goal_protein := d.protein.goal }) s3 ((([] ++ ks1) ++ ks2) ++ ks3)
        (fun hp => hpre .proteinGoal (by decide) (by decide) hp)
      obtain ⟨s5, ks5, he5, hk5⟩ := stepChecked_okAny env "intake_protein"
        "Failed to import protein intake" (truthy d.protein.intake)
        (fun t => { t with intake_protein := d.protein.intake }) s4 (((([] ++ ks1) ++ ks2) ++ ks3) ++ ks4)
        (fun hp => hpre .proteinIntake (by decide) (by decide) hp)
      obtain ⟨s6, ks6, he6, hk6⟩ := stepChecked_okAny env "history_protein"
        "Failed to import protein history" (truthyVal d.protein.history)
        (fun t => { t with history_protein := .val (d.protein.history.getD []) }) s5 ((((([] ++ ks1) ++ ks2) ++ ks3) ++ ks4) ++ ks5)
        (fun hp => hpre .proteinHistory (by decide) (by decide) hp)
      obtain ⟨s7, ks7, he7, hk7⟩ := stepChecked_okAny env "workout_state"
        "Failed to import workout state" (truthyVal wk.state)
        (fun t => { t with workout_state := .val (wk.state.getD []) }) s6 (((((([] ++ ks1) ++ ks2) ++ ks3) ++ ks4) ++ ks5) ++ ks6)
        (fun hp => hpre .workoutState (by decide) (by decide) (by simp only [appliedPresent, hwo]; exact hp))
      obtain ⟨s8, ks8, he8, hk8⟩ := stepChecked_okAny env "workout_count"
        "Failed to import workout count" (truthyVal wk.count)
        (fun t => { t with workout_count := .val (wk.count.getD []) }) s7 ((((((([] ++ ks1) ++ ks2) ++ ks3) ++ ks4) ++ ks5) ++ ks6) ++ ks7)
        (fun hp => hpre .workoutCount (by decide) (by decide) (by simp only [appliedPresent, hwo]; exact hp))
      have hpf : truthyVal wk.history = true := by simp only [appliedPresent, hwo] at hpres; exact hpres
      have hqf : env.attempt1 "workout_history" = .quotaErr := hq
      have hrf : env.attempt2 "workout_history" ≠ .ok := hr
      unfold performDataImport
      simp only [he1, he2, he3, he4, he5, he6, he7, he8, impSeq_none, hwo, hpf]
      rw [stepChecked_fail env "workout_history" _ _ _ _ hqf hrf, impSeq_some]
      refine ⟨rfl, fun g hg hmem => ?_⟩
      have hg2 : 8 < fieldRank g := hg
      simp only [List.nil_append, List.mem_append, List.mem_singleton] at hmem
      rcases hmem with ((((((((h | h) | h) | h) | h) | h) | h) | h) | h)
      · exact key_ne_of_rank_lt g .waterGoal (Nat.lt_of_le_of_lt (by decide) hg2) (hk1 _ h)
      · exact key_ne_of_rank_lt g .waterIntake (Nat.lt_of_le_of_lt (by decide) hg2) (hk2 _ h)
      · exact key_ne_of_rank_lt g .waterHistory (Nat.lt_of_le_of_lt (by decide) hg2) (hk3 _ h)
      · exact key_ne_of_rank_lt g .proteinGoal (Nat.lt_of_le_of_lt (by decide) hg2) (hk4 _ h)
      · exact key_ne_of_rank_lt g .proteinIntake (Nat.lt_of_le_of_lt (by decide) hg2) (hk5 _ h)
      · exact key_ne_of_rank_lt g .proteinHistory (Nat.lt_of_le_of_lt (by decide) hg2) (hk6 _ h)
      · exact key_ne_of_rank_lt g .workoutState (Nat.lt_of_le_of_lt (by decide) hg2) (hk7 _ h)
      · exact key_ne_of_rank_lt g .workoutCount (Nat.lt_of_le_of_lt (by decide) hg2) (hk8 _ h)
      · exact key_ne_of_rank_lt g .workoutHistory (Nat.lt_of_le_of_lt (by decide) hg2) h
  | habitsData =>
    cases hhb : d.habits with
    | none =>
      simp only [appliedPresent, hhb] at hpres
      exact absurd hpres (by decide)
    | some hb =>
      cases hwo : d.workout with
      | none =>
        obtain ⟨s1, ks1, he1, hk1⟩ := stepChecked_okAny env "goal_water"
          "Failed to import water goal" (truthy d.water.goal)
          (fun t => { t with goal_water := d.water.goal }) s []
          (fun hp => hpre .waterGoal (by decide) (by decide) hp)
        obtain ⟨s2, ks2, he2, hk2⟩ := stepChecked_okAny env "intake_water"
          "Failed to import water intake" (truthy d.water.intake)
          (fun t => { t with intake_water := d.water.intake }) s1 ([] ++ ks1)
          (fun hp => hpre .waterIntake (by decide) (by decide) hp)
        obtain ⟨s3, ks3, he3, hk3⟩ := stepChecked_okAny env "history_water"
          "Failed to import water history" (truthyVal d.water.history)
          (fun t => { t with history_water := .val (d.water.history.getD []) }) s2 (([] ++ ks1) ++ ks2)
          (fun hp => hpre .waterHistory (by decide) (by decide) hp)
        obtain ⟨s4, ks4, he4, hk4⟩ := stepChecked_okAny env "goal_protein"
          "Failed to import protein goal" (truthy d.protein.goal)
          (fun t => { t with goal_protein := d.protein.goal }) s3 ((([] ++ ks1) ++ ks2) ++ ks3)
          (fun hp => hpre .proteinGoal (by decide) (by decide) hp)
        obtain ⟨s5, ks5, he5, hk5⟩ := stepChecked_okAny env "intake_protein"
          "Failed to import protein intake" (truthy d.protein.intake)
          (fun t => { t with intake_protein := d.protein.intake }) s4 (((([] ++ ks1) ++ ks2) ++ ks3) ++ ks4)
          (fun hp => hpre .proteinIntake (by decide) (by decide) hp)
        obtain ⟨s6, ks6, he6, hk6⟩ := stepChecked_okAny env "history_protein"
          "Failed to import protein history" (truthyVal d.protein.history)
          (fun t => { t with history_protein := .val (d.protein.history.getD []) }) s5 ((((([] ++ ks1) ++ ks2) ++ ks3) ++ ks4) ++ ks5)
          (fun hp => hpre .proteinHistory (by decide) (by decide) hp)
        have hpf : truthyVal hb.data = true := by simp only [appliedPresent, hhb] at hpres; exact hpres
        have hqf : env.attempt1 "habits_data" = .quotaErr := hq
        have hrf : env.attempt2 "habits_data" ≠ .ok := hr
        unfold performDataImport
        simp only [he1, he2, he3, he4, he5, he6, impSeq_none, hwo, hhb, hpf]
        rw [stepChecked_fail env "habits_data" _ _ _ _ hqf hrf, impSeq_some]
        refine ⟨rfl, fun g hg hmem => ?_⟩
        have hg2 : 9 < fieldRank g := hg
        simp only [List.nil_append, List.mem_append, List.mem_singleton] at hmem
        rcases hmem with ((((((h | h) | h) | h) | h) | h) | h)
        · exact key_ne_of_rank_lt g .waterGoal (Nat.lt_of_le_of_lt (by decide) hg2) (hk1 _ h)
        · exact key_ne_of_rank_lt g .waterIntake (Nat.lt_of_le_of_lt (by decide) hg2) (hk2 _ h)
        · exact key_ne_of_rank_lt g .waterHistory (Nat.lt_of_le_of_lt (by decide) hg2) (hk3 _ h)
        · exact key_ne_of_rank_lt g .proteinGoal (Nat.lt_of_le_of_lt (by decide) hg2) (hk4 _ h)
        · exact key_ne_of_rank_lt g .proteinIntake (Nat.lt_of_le_of_lt (by decide) hg2) (hk5 _ h)
        · exact key_ne_of_rank_lt g .proteinHistory (Nat.lt_of_le_of_lt (by decide) hg2) (hk6 _ h)
        · exact key_ne_of_rank_lt g .habitsData (Nat.lt_of_le_of_lt (by decide) hg2) h
      | some wk =>
        obtain ⟨s1, ks1, he1, hk1⟩ := stepChecked_okAny env "goal_water"
          "Failed to import water goal" (truthy d.water.goal)
          (fun t => { t with goal_water := d.water.goal }) s []
          (fun hp => hpre .waterGoal (by decide) (by decide) hp)
        obtain ⟨s2, ks2, he2, hk2⟩ := stepChecked_okAny env "intake_water"
          "Failed to import water intake" (truthy d.water.intake)
          (fun t => { t with intake_water := d.water.intake }) s1 ([] ++ ks1)
          (fun hp => hpre .waterIntake (by decide) (by decide) hp)
        obtain ⟨s3, ks3, he3, hk3⟩ := stepChecked_okAny env "history_water"
          "Failed to import water history" (truthyVal d.water.history)
          (fun t => { t with history_water := .val (d.water.history.getD []) }) s2 (([] ++ ks1) ++ ks2)
          (fun hp => hpre .waterHistory (by decide) (by decide) hp)
        obtain ⟨s4, ks4, he4, hk4⟩ := stepChecked_okAny env "goal_protein"
          "Failed to import protein goal" (truthy d.protein.goal)
          (fun t => { t with goal_protein := d.protein.goal }) s3 ((([] ++ ks1) ++ ks2) ++ ks3)
          (fun hp => hpre .proteinGoal (by decide) (by decide) hp)
        obtain ⟨s5, ks5, he5, hk5⟩ := stepChecked_okAny env "intake_protein"
          "Failed to import protein intake" (truthy d.protein.intake)
          (fun t => { t with intake_protein := d.protein.intake }) s4 (((([] ++ ks1) ++ ks2) ++ ks3) ++ ks4)
          (fun hp => hpre .proteinIntake (by decide) (by decide) hp)
        obtain ⟨s6, ks6, he6, hk6⟩ := stepChecked_okAny env "history_protein"
          "Failed to import protein history" (truthyVal d.protein.history)
          (fun t => { t with history_protein := .val (d.protein.history.getD []) }) s5 ((((([] ++ ks1) ++ ks2) ++ ks3) ++ ks4) ++ ks5)
          (fun hp => hpre .proteinHistory (by decide) (by decide) hp)
        obtain ⟨s7, ks7, he7, hk7⟩ := stepChecked_okAny env "workout_state"
          "Failed to import workout state" (truthyVal wk.state)
          (fun t => { t with workout_state := .val (wk.state.getD []) }) s6 (((((([] ++ ks1) ++ ks2) ++ ks3) ++ ks4) ++ ks5) ++ ks6)
          (fun hp => hpre .workoutState (by decide) (by decide) (by simp only [appliedPresent, hwo]; exact hp))
        obtain ⟨s8, ks8, he8, hk8⟩ := stepChecked_okAny env "workout_count"
          "Failed to import workout count" (truthyVal wk.count)
          (fun t => { t with workout_count := .val (wk.count.getD []) }) s7 ((((((([] ++ ks1) ++ ks2) ++ ks3) ++ ks4) ++ ks5) ++ ks6) ++ ks7)
          (fun hp => hpre .workoutCount (by decide) (by decide) (by simp only [appliedPresent, hwo]; exact hp))
        obtain ⟨s9, ks9, he9, hk9⟩ := stepChecked_okAny env "workout_history"
          "Failed to import workout history" (truthyVal wk.history)
          (fun t => { t with workout_history := .val (wk.history.getD []) }) s8 (((((((([] ++ ks1) ++ ks2) ++ ks3) ++ ks4) ++ ks5) ++ ks6) ++ ks7) ++ ks8)
          (fun hp => hpre .workoutHistory (by decide) (by decide) (by simp only [appliedPresent, hwo]; exact hp))
        have hpf : truthyVal hb.data = true := by simp only [appliedPresent, hhb] at hpres; exact hpres
        have hqf : env.attempt1 "habits_data" = .quotaErr := hq
        have hrf : env.attempt2 "habits_data" ≠ .ok := hr
        unfold performDataImport
        simp only [he1, he2, he3, he4, he5, he6, he7, he8, he9, impSeq_none, hwo, hhb, hpf]
        rw [stepChecked_fail env "habits_data" _ _ _ _ hqf hrf, impSeq_some]
        refine ⟨rfl, fun g hg hmem => ?_⟩
        have hg2 : 9 < fieldRank g := hg
        simp only [List.nil_append, List.mem_append, List.mem_singleton] at hmem
        rcases hmem with (((((((((h | h) | h) | h) | h) | h) | h) | h) | h) | h)
        · exact key_ne_of_rank_lt g .waterGoal (Nat.lt_of_le_of_lt (by decide) hg2) (hk1 _ h)
        · exact key_ne_of_rank_lt g .waterIntake (Nat.lt_of_le_of_lt (by decide) hg2) (hk2 _ h)
        · exact key_ne_of_rank_lt g .waterHistory (Nat.lt_of_le_of_lt (by decide) hg2) (hk3 _ h)
        · exact key_ne_of_rank_lt g .proteinGoal (Nat.lt_of_le_of_lt (by decide) hg2) (hk4 _ h)
        · exact key_ne_of_rank_lt g .proteinIntake (Nat.lt_of_le_of_lt (by decide) hg2) (hk5 _ h)
        · exact key_ne_of_rank_lt g .proteinHistory (Nat.lt_of_le_of_lt (by decide) hg2) (hk6 _ h)
        · exact key_ne_of_rank_lt g .workoutState (Nat.lt_of_le_of_lt (by decide) hg2) (hk7 _ h)
        · exact key_ne_of_rank_lt g .workoutCount (Nat.lt_of_le_of_lt (by decide) hg2) (hk8 _ h)
        · exact key_ne_of_rank_lt g .workoutHistory (Nat.lt_of_le_of_lt (by decide) hg2) (hk9 _ h)
        · exact key_ne_of_rank_lt g .habitsData (Nat.lt_of_le_of_lt (by decide) hg2) h

/-- A small pre-import store for the C7 concrete runs. -/
def impStore : RawStore where
  goal_water := some "1500"
  intake_water := none
  goal_protein := none
  intake_protein := none
  history_water := .val []
  history_protein := .val []
  workout_state := .val []
  workout_count := .val []
  workout_history := .val []
  habits_data := .val []
  app_theme := none
  global_reminder := none

/-- The import payload used by the C7 counterexample and witness:
every field present and truthy. -/
def impDataFull : ImpData :=
  ⟨⟨some "2000", some "500", some [("2024-01-01", [⟨250, "t1"⟩])]⟩,
   ⟨some "150", some "80", some [("2024-01-01", [⟨30, "t2"⟩])]⟩,
   some ⟨some [("pushups", ⟨true, 1⟩)], some [("pushups", 12)],
     some [("2024-01-02", [⟨"pushups", 12, "t3"⟩])]⟩,
   some ⟨some [⟨some "walk", some "#4CAF50", [("2024-01-02", "true")]⟩]⟩,
   some ⟨some "dark", some "on"⟩⟩

/-- Write environment where only the app_theme raw write fails (with a
non-quota error) and every other write succeeds directly. -/
def themeFailEnv : ImportEnv :=
  ⟨fun k => if k == "app_theme" then .otherErr else .ok, fun _ => .ok, false⟩

/-- C7 counterexample: the app_theme write fails, yet performDataImport
raises no import-failure condition, reports success, and still passes
the later global_reminder key to safeSetItem and writes it. The claim
says a failing field write raises a field-named failure and aborts the
remaining writes uniformly for every field applied, including the
settings fields. -/
theorem C7_settings_unchecked_counterexample :
    appliedPresent impDataFull .theme = true ∧
      themeFailEnv.attempt1 (fieldKey .theme) = .otherErr ∧
      (performDataImport themeFailEnv impDataFull impStore).1 = none ∧
      fieldKey .reminder ∈ (performDataImport themeFailEnv impDataFull impStore).2.2 ∧
      (performDataImport themeFailEnv impDataFull impStore).2.1.global_reminder = some "on" ∧
      (performDataImport themeFailEnv impDataFull impStore).2.1.app_theme = none := by
  decide

/-- Write environment where the habits_data direct write hits the
quota, its retry also fails, and every other write succeeds
directly. -/
def habitsFailEnv : ImportEnv :=
  ⟨fun k => if k == "habits_data" then .quotaErr else .ok, fun _ => .otherErr, false⟩

/-- Witness for C7 amended: the habits_data write fails on the quota
path; the import throws the habits message and no later field's key is
ever passed to safeSetItem. -/
theorem C7_checked_write_failure_witness :
    (performDataImport habitsFailEnv impDataFull impStore).1 =
        some (fieldMsg .habitsData) ∧
      ∀ g, fieldRank .habitsData < fieldRank g →
        fieldKey g ∉ (performDataImport habitsFailEnv impDataFull impStore).2.2 :=
  C7_checked_write_failure habitsFailEnv impDataFull impStore .habitsData (by decide)
    (by decide) (by decide) (by decide) (by decide)

/-- A date-bucketed water history holding thirty-one distinct dates,
one entry each. -/
def longWaterHistory : List (String × List SEntry) :=
  (List.range 31).map (fun i => (String.mk ('d' :: Nat.toDigits 10 (100 + i)), [⟨1, "t"⟩]))

/-- Pre-import store for the C10 counterexample: the stored water
history holds thirty-one dates, one over the constrained-tier
retention bound. -/
def c10Store : RawStore where
  goal_water := some "1500"
  intake_water := none
  goal_protein := none
  intake_protein := none
  history_water := .val longWaterHistory
  history_protein := .val []
  workout_state := .val []
  workout_count := .val []
  workout_history := .val []
  habits_data := .val []
  app_theme := none
  global_reminder := none

/-- Import payload for the C10 runs: only the water goal is present;
in particular the water history field is falsy. -/
def c10Data : ImpData :=
  ⟨⟨some "2000", none, none⟩, ⟨none, none, none⟩, none, none, none⟩

/-- Environment for the C10 counterexample: the water goal's direct
write hits the quota (triggering cleanupOldData on the constrained
tier) and its retry succeeds; every other attempt would succeed. -/
def c10Env : ImportEnv :=
  ⟨fun k => if k == "goal_water" then .quotaErr else .ok, fun _ => .ok, true⟩

/-- C10 counterexample: the water history field of the payload is
falsy and its key history_water is never passed to safeSetItem, yet
the import run changes that key's stored value: the quota-failing
water-goal write runs cleanupOldData, which trims the thirty-one
stored dates down to thirty. The import itself reports success. The
claim says the falsy field's pre-import stored value is left
unchanged. -/
theorem C10_quota_cleanup_counterexample :
    appliedPresent c10Data .waterHistory = false ∧
      fieldKey .waterHistory ∉ (performDataImport c10Env c10Data c10Store).2.2 ∧
      (performDataImport c10Env c10Data c10Store).1 = none ∧
      unchangedAt .waterHistory c10Store (performDataImport c10Env c10Data c10Store).2.1
        = false := by
  decide

/-- Write environment where every raw write succeeds directly. -/
def allOkEnv : ImportEnv := ⟨fun _ => .ok, fun _ => .ok, false⟩

/-- Witness for C10 amended: the water history field is falsy; its key
is never passed to safeSetItem, and since no attempt fails with a
quota error its stored value is unchanged. -/
theorem C10_falsy_field_untouched_witness :
    fieldKey .waterHistory ∉ (performDataImport allOkEnv c10Data c10Store).2.2 ∧
      ((∀ k, allOkEnv.attempt1 k ≠ .quotaErr) →
        unchangedAt .waterHistory c10Store
          (performDataImport allOkEnv c10Data c10Store).2.1 = true) :=
  C10_falsy_field_untouched allOkEnv c10Data c10Store .waterHistory (by decide)

/-! ## CSV codec: parseCSVData (C8, C9) and convertDataToCSV (C1, C2) -/

/-- JS parseInt in base 10: skip leading whitespace, take an optional
sign and then the longest digit prefix; NaN (none) when no digit
follows. parseInt of undefined is NaN, handled at call sites by
Option.bind. The hexadecimal 0x prefix of parseInt is not modelled; no
input in this development carries one. -/
def parseIntJS (s : String) : Option Int :=
  let l := s.data.dropWhile (fun c => c.isWhitespace)
  let core : List Char → Option Nat := fun r =>
    let d := r.takeWhile (fun c => c.isDigit)
    if d.isEmpty then none
    else some (d.foldl (fun n c => 10 * n + (c.toNat - 48)) 0)
  match l with
  | '-' :: r => (core r).map (fun n => -(n : Int))
  | '+' :: r => (core r).map (fun n => (n : Int))
  | r => (core r).map (fun n => (n : Int))

/-- String.prototype.split on the newline regex of parseCSVData (line
919): a separator is a newline optionally preceded by a carriage
return; a lone carriage return is kept. -/
def splitLinesAux : List Char → List (List Char)
  | [] => [[]]
  | '\r' :: '\n' :: rest => [] :: splitLinesAux rest
  | '\n' :: rest => [] :: splitLinesAux rest
  | c :: rest =>
    match splitLinesAux rest with
    | [] => [[c]]
    | l :: ls => (c :: l) :: ls

/-- String.prototype.split on a single-character separator, for the
underscore split of habit_history keys (line 1045). -/
def splitOnChar (sep : Char) : List Char → List (List Char)
  | [] => [[]]
  | c :: rest =>
    if c = sep then [] :: splitOnChar sep rest
    else
      match splitOnChar sep rest with
      | [] => [[c]]
      | l :: ls => (c :: l) :: ls

/-- The headerMap of parseCSVData (lines 922-926): the index assigned
to a column name, the last one winning on duplicates, none when the
header lacks the name. -/
def headerIndexOf (headers : List String) (name : String) : Option Nat :=
  headers.enum.foldl (fun acc p => if p.2 = name then some p.1 else acc) none

/-- A parsed water or protein history entry: parseInt may give NaN
(none) and the timestamp cell may be missing (undefined). -/
structure PEntry where
  amount : Option Int
  timestamp : Option String
  deriving DecidableEq, Repr

/-- A parsed per-type workout state. -/
structure PWorkoutState where
  completed : Bool
  order : Option Int
  deriving DecidableEq, Repr

/-- A parsed workout history entry. -/
structure PWorkoutEntry where
  type : Option String
  count : Option Int
  timestamp : Option String
  deriving DecidableEq, Repr

/-- A parsed habit. A placeholder pushed by the padding loop has no
name and no color; JS distinguishes an absent property from one set to
undefined, but JSON.stringify erases the difference, so both are
none. -/
structure PHabit where
  name : Option String
  color : Option String
  history : List (String × Option String)
  deriving DecidableEq, Repr

/-- The importedData accumulator of parseCSVData (lines 929-937),
before the final JSON.stringify re-encoding of lines 1068-1090, which
is a plain serialization for performDataImport and is not modelled.
exportDate none stands for the clock default new Date().toISOString()
assigned at line 931. -/
structure ParsedData where
  version : Option String
  exportDate : Option String
  water_goal : Option String
  water_intake : Option String
  water_history : List (String × List PEntry)
  protein_goal : Option String
  protein_intake : Option String
  protein_history : List (String × List PEntry)
  workout_state : List (String × PWorkoutState)
  workout_count : List (String × Option Int)
  workout_history : List (String × List PWorkoutEntry)
  habits : List PHabit
  settings_theme : Option String
  settings_reminder : Option String
  deriving DecidableEq, Repr

/-- The empty importedData (lines 929-937). -/
def initParsed : ParsedData :=
  { version := some "3.0"
    exportDate := none
    water_goal := none
    water_intake := none
    water_history := []
    protein_goal := none
    protein_intake := none
    protein_history := []
    workout_state := []
    workout_count := []
    workout_history := []
    habits := []
    settings_theme := none
    settings_reminder := none }

/-- Append an entry to the date bucket, creating the bucket when the
date key is absent (the JS falsy check at lines 964-966: an existing
empty array is truthy, so only absence creates). Assigning an existing
key keeps its position, as JS objects do. -/
def pushBucket {α : Type} (l : List (String × List α)) (k : String) (e : α) :
    List (String × List α) :=
  if l.any (fun kv => kv.1 = k) then
    l.map (fun kv => if kv.1 = k then (kv.1, kv.2 ++ [e]) else kv)
  else l ++ [(k, [e])]

/-- JS object assignment obj[k] = v: replace in place when the key
exists, append otherwise. -/
def setAssoc {α : Type} (l : List (String × α)) (k : String) (v : α) :
    List (String × α) :=
  if l.any (fun kv => kv.1 = k) then
    l.map (fun kv => if kv.1 = k then (kv.1, v) else kv)
  else l ++ [(k, v)]

/-- The while loop of lines 1033-1035 and 1049-1051: push empty
placeholder habits until the index is in range. -/
def padHabits (hs : List PHabit) (n : Nat) : List PHabit :=
  hs ++ List.replicate (n + 1 - hs.length) ⟨none, none, []⟩

/-- The cell of a row under a named column: row[headerMap[name]],
undefined (none) when the header lacks the column or the row is too
short. The row is re-tokenized per access; parseCSVRowAux is pure, so
this equals the single tokenization of the source. -/
def rowCell (hm : String → Option Nat) (rowChars : List Char) (name : String) :
    Option String :=
  (hm name).bind (fun i => ((parseCSVRowAux rowChars false []).map String.mk).get? i)

/-- One data row of parseCSVData (lines 940-1065): skip blank rows,
tokenize, dispatch on the data_type cell. An unrecognized tag falls
through the switch and leaves the accumulator unchanged. The TypeError
errors model the JS exceptions thrown when a habit or habit_history
row carries a key that is undefined, not a number, or negative (the
source then reads a property of undefined). -/
def processRow (hm : String → Option Nat) (st : ParsedData) (rowChars : List Char) :
    Except String ParsedData :=
  if rowChars.all (fun c => c.isWhitespace) then .ok st
  else
    let cell := rowCell hm rowChars
    let dataType := cell "data_type"
    let key := cell "key"
    let value := cell "value"
    if dataType = some "meta" then
      .ok { st with
        version := if key = some "version" then value else st.version
        exportDate := if key = some "exportDate" then value else st.exportDate }
    else if dataType = some "water" then
      .ok { st with
        water_goal := if key = some "goal" then value else st.water_goal
        water_intake := if key = some "intake" then value else st.water_intake }
    else if dataType = some "water_history" then
      .ok { st with
        water_history := pushBucket st.water_history ((cell "date").getD "undefined")
          ⟨(cell "amount").bind parseIntJS, cell "timestamp"⟩ }
    else if dataType = some "protein" then
      .ok { st with
        protein_goal := if key = some "goal" then value else st.protein_goal
        protein_intake := if key = some "intake" then value else st.protein_intake }
    else if dataType = some "protein_history" then
      .ok { st with
        protein_history := pushBucket st.protein_history ((cell "date").getD "undefined")
          ⟨(cell "amount").bind parseIntJS, cell "timestamp"⟩ }
    else if dataType = some "workout_state" then
      .ok { st with
        workout_state := setAssoc st.workout_state ((cell "type").getD "undefined")
          ⟨decide (cell "completed" = some "true"), (cell "order").bind parseIntJS⟩ }
    else if dataType = some "workout_count" then
      .ok { st with
        workout_count := setAssoc st.workout_count ((cell "type").getD "undefined")
          ((cell "count").bind parseIntJS) }
    else if dataType = some "workout_history" then
      .ok { st with
        workout_history := pushBucket st.workout_history ((cell "date").getD "undefined")
          ⟨cell "type", (cell "count").bind parseIntJS, cell "timestamp"⟩ }
    else if dataType = some "habit" then
      match key.bind parseIntJS with
      | none => .error "TypeError"
      | some i =>
        if i < 0 then .error "TypeError"
        else
          let padded := padHabits st.habits i.toNat
          .ok { st with habits := (padded.set i.toNat
            ⟨cell "name", cell "color", (padded.getD i.toNat ⟨none, none, []⟩).history⟩) }
    else if dataType = some "habit_history" then
      match key with
      | none => .error "TypeError"
      | some k =>
        let parts := (splitOnChar '_' k.data).map String.mk
        match parseIntJS (parts.headD "") with
        | none => .error "TypeError"
        | some i =>
          if i < 0 then .error "TypeError"
          else
            let padded := padHabits st.habits i.toNat
            let hb := padded.getD i.toNat ⟨none, none, []⟩
            .ok { st with habits := (padded.set i.toNat
              { hb with history := setAssoc hb.history ((parts.get? 1).getD "undefined") value }) }
    else if dataType = some "settings" then
      .ok { st with
        settings_theme := if key = some "theme" then value else st.settings_theme
        settings_reminder := if key = some "reminder" then value else st.settings_reminder }
    else .ok st

/-- parseCSVData (core-scripts.js lines 918-1091): split lines, reject
inputs with fewer than two lines, build the header map from the first
line, fold the data rows. -/
def parseCSVData (csvData : String) : Except String ParsedData :=
  if (splitLinesAux csvData.data).length < 2 then .error "Invalid CSV file format"
  else
    ((splitLinesAux csvData.data).drop 1).foldlM
      (processRow (headerIndexOf
        ((parseCSVRowAux ((splitLinesAux csvData.data).headD []) false []).map String.mk)))
      initParsed

/-- The fixed header row (lines 778-781). -/
def csvHeaders : List String :=
  ["data_type", "key", "value", "date", "amount", "timestamp", "type", "count", "name",
    "color", "completed", "order"]

/-- Render one row: every cell through escapeCSV, joined by commas
(lines 794-800 and the inline row pushes). An untouched cell of the
prefilled array is the empty string, which escapes to the empty field
exactly as a null cell does. -/
def renderRow (cells : List (Option String)) : String :=
  String.intercalate "," (cells.map escapeCSV)

/-- addRow (lines 794-800): a data_type, key, value row. -/
def addRow (dataType key : String) (value : Option String) : String :=
  renderRow [some dataType, some key, value, none, none, none, none, none, none, none,
    none, none]

/-- The water_history and protein_history rows (lines 813-824 and
833-844): one row per entry, key date_index, date and amount and
timestamp columns. -/
def entryRows (tag : String) (h : List (String × List SEntry)) : List String :=
  h.flatMap (fun de =>
    de.2.enum.map (fun ie =>
      renderRow [some tag, some (de.1 ++ "_" ++ toString ie.1), none, some de.1,
        some (toString ie.2.amount), some ie.2.timestamp, none, none, none, none, none,
        none]))

/-- The workout_state rows (lines 847-856). -/
def workoutStateRows (ws : List (String × SWorkoutState)) : List String :=
  ws.map (fun ts =>
    renderRow [some "workout_state", some ts.1, none, none, none, none, some ts.1, none,
      none, none, some (toString ts.2.completed), some (toString ts.2.order)])

/-- The workout_count rows (lines 858-866). -/
def workoutCountRows (wc : List (String × Int)) : List String :=
  wc.map (fun tc =>
    renderRow [some "workout_count", some tc.1, none, none, none, none, some tc.1,
      some (toString tc.2), none, none, none, none])

/-- The workout_history rows (lines 868-880). -/
def workoutHistoryRows (wh : List (String × List SWorkoutEntry)) : List String :=
  wh.flatMap (fun de =>
    de.2.enum.map (fun ie =>
      renderRow [some "workout_history", some (de.1 ++ "_" ++ toString ie.1), none,
        some de.1, none, some ie.2.timestamp, some ie.2.type, some (toString ie.2.count),
        none, none, none, none]))

/-- The habit and habit_history rows (lines 883-903): each habit row
immediately followed by its history rows. -/
def habitRows (hd : List SHabit) : List String :=
  hd.enum.flatMap (fun ih =>
    renderRow [some "habit", some (toString ih.1), none, none, none, none, none, none,
        ih.2.name, ih.2.color, none, none] ::
      ih.2.history.map (fun ds =>
        renderRow [some "habit_history", some (toString ih.1 ++ "_" ++ ds.1), some ds.2,
          some ds.1, none, none, none, none, none, none, none, none]))

/-- JSON.parse of one stored value: throws SyntaxError on corrupt
text. The Error name stands for the whole thrown exception; the
position-dependent message text is not modelled. -/
def readJson {α : Type} : Stored α → Except String α
  | .corrupt => .error "SyntaxError"
  | .val a => .ok a

/-- convertDataToCSV (core-scripts.js lines 774-913). The export date
cell is new Date().toISOString() at line 804, passed as an argument
here. The JSON.parse reads are sequenced in source order, so the first
corrupt key aborts the whole conversion with its SyntaxError; reads of
goal, intake and settings keys cannot throw and are used directly. -/
def convertDataToCSV (exportDate : String) (s : RawStore) : Except String String := do
  let waterHistory ← readJson s.history_water
  let proteinHistory ← readJson s.history_protein
  let workoutState ← readJson s.workout_state
  let workoutCount ← readJson s.workout_count
  let workoutHistory ← readJson s.workout_history
  let habitsData ← readJson s.habits_data
  .ok (String.intercalate "\n"
    ([String.intercalate "," csvHeaders,
      addRow "meta" "version" (some "3.0"),
      addRow "meta" "exportDate" (some exportDate),
      addRow "water" "goal" s.goal_water,
      addRow "water" "intake" s.intake_water]
    ++ entryRows "water_history" waterHistory
    ++ [addRow "protein" "goal" s.goal_protein,
        addRow "protein" "intake" s.intake_protein]
    ++ entryRows "protein_history" proteinHistory
    ++ workoutStateRows workoutState
    ++ workoutCountRows workoutCount
    ++ workoutHistoryRows workoutHistory
    ++ habitRows habitsData
    ++ [addRow "settings" "theme" s.app_theme,
        addRow "settings" "reminder" s.global_reminder]))

theorem aux_unquoted (l : List Char) : ∀ (acc rest : List Char),
    (∀ c ∈ l, c ≠ '"' ∧ c ≠ ',') →
    parseCSVRowAux (l ++ rest) false acc = parseCSVRowAux rest false (l.reverse ++ acc) := by
  induction l with
  | nil => intro acc rest h; simp
  | cons c l' ih =>
    intro acc rest h
    have hc := h c (List.mem_cons_self c l')
    rw [List.cons_append, aux_other c hc.1 hc.2,
      ih (c :: acc) rest (fun x hx => h x (List.mem_cons_of_mem c hx))]
    simp

theorem splitLines_cons_ne (c : Char) (h1 : c ≠ '\n') (h2 : c ≠ '\r') (rest : List Char) :
    splitLinesAux (c :: rest) =
      match splitLinesAux rest with
      | [] => [[c]]
      | l :: ls => (c :: l) :: ls := by
  rw [splitLinesAux.eq_def]
  split
  · rename_i heq; exact absurd heq (by simp)
  · rename_i heq; simp only [List.cons.injEq] at heq; exact absurd heq.1 h2
  · rename_i heq; simp only [List.cons.injEq] at heq; exact absurd heq.1 h1
  · rename_i hcr hn heq
    simp only [List.cons.injEq] at heq
    rw [heq.1, heq.2]

theorem splitLinesAux_single (l : List Char) (h : ∀ c ∈ l, c ≠ '\n' ∧ c ≠ '\r') :
    splitLinesAux l = [l] := by
  induction l with
  | nil => rfl
  | cons c l' ih =>
    have hc := h c (List.mem_cons_self c l')
    rw [splitLines_cons_ne c hc.1 hc.2, ih (fun x hx => h x (List.mem_cons_of_mem c hx))]

theorem splitLinesAux_append_newline (l rest : List Char)
    (h : ∀ c ∈ l, c ≠ '\n' ∧ c ≠ '\r') :
    splitLinesAux (l ++ '\n' :: rest) = l :: splitLinesAux rest := by
  induction l with
  | nil => rfl
  | cons c l' ih =>
    have hc := h c (List.mem_cons_self c l')
    rw [List.cons_append, splitLines_cons_ne c hc.1 hc.2,
      ih (fun x hx => h x (List.mem_cons_of_mem c hx))]

/-- The data_type tags the switch of parseCSVData recognizes (lines
948-1063). -/
def recognizedTags : List String :=
  ["meta", "water", "water_history", "protein", "protein_history", "workout_state",
    "workout_count", "workout_history", "habit", "habit_history", "settings"]

/-- Whether a data row carries a recognized tag (blank rows and rows
with any other tag fall through the switch). -/
def recognizedRow (hm : String → Option Nat) (r : List Char) : Bool :=
  recognizedTags.any (fun t => rowCell hm r "data_type" = some t)

theorem processRow_unrecognized (hm : String → Option Nat) (st : ParsedData)
    (rowChars : List Char)
    (h : ∀ t ∈ recognizedTags, rowCell hm rowChars "data_type" ≠ some t) :
    processRow hm st rowChars = .ok st := by
  by_cases hb : (rowChars.all (fun c => c.isWhitespace)) = true
  · simp [processRow, hb]
  · simp only [processRow, hb, Bool.false_eq_true, if_false]
    rw [if_neg (h "meta" (by decide)), if_neg (h "water" (by decide)),
      if_neg (h "water_history" (by decide)), if_neg (h "protein" (by decide)),
      if_neg (h "protein_history" (by decide)), if_neg (h "workout_state" (by decide)),
      if_neg (h "workout_count" (by decide)), if_neg (h "workout_history" (by decide)),
      if_neg (h "habit" (by decide)), if_neg (h "habit_history" (by decide)),
      if_neg (h "settings" (by decide))]

theorem foldlM_processRow_filter (hm : String → Option Nat) :
    ∀ (rows : List (List Char)) (st : ParsedData),
      rows.foldlM (processRow hm) st =
        (rows.filter (fun r => recognizedRow hm r)).foldlM (processRow hm) st := by
  intro rows
  induction rows with
  | nil => intro st; rfl
  | cons r rs ih =>
    intro st
    by_cases hr : recognizedRow hm r = true
    · simp only [List.filter_cons, hr, if_true, List.foldlM]
      simp [ih]
    · have hu : ∀ t ∈ recognizedTags, rowCell hm r "data_type" ≠ some t := by
        simpa [recognizedRow] using hr
      have hok : processRow hm st r = .ok st := processRow_unrecognized hm st r hu
      simp only [List.filter_cons, hr, if_false, List.foldlM, hok]
      simp only [ih]
      rfl

/-- C9: a data row whose data_type tag is not one of the eleven
recognized kinds is silently ignored by the row dispatch of
parseCSVData: processing it leaves the accumulated snapshot unchanged
and never fails, and the whole fold that parseCSVData runs over the
data rows equals the fold over the recognized rows alone. -/
theorem C9_unrecognized_rows_ignored :
    (∀ (hm : String → Option Nat) (st : ParsedData) (rowChars : List Char),
      (∀ t ∈ recognizedTags, rowCell hm rowChars "data_type" ≠ some t) →
      processRow hm st rowChars = .ok st) ∧
    ∀ (hm : String → Option Nat) (rows : List (List Char)) (st : ParsedData),
      rows.foldlM (processRow hm) st =
        (rows.filter (fun r => recognizedRow hm r)).foldlM (processRow hm) st :=
  ⟨processRow_unrecognized, foldlM_processRow_filter⟩

/-- Witness for C9 at a concrete bogus row. -/
theorem C9_unrecognized_rows_ignored_witness :
    processRow (headerIndexOf csvHeaders) initParsed ("bogus,1,2" : String).data =
      .ok initParsed :=
  C9_unrecognized_rows_ignored.1 (headerIndexOf csvHeaders) initParsed
    ("bogus,1,2" : String).data (by decide)

end HealthTracker


namespace HealthTracker

/-- The header line emitted by convertDataToCSV (line 781). -/
def csvHeaderLine : String :=
  "data_type,key,value,date,amount,timestamp,type,count,name,color,completed,order"

/-- An import file holding only the header line and one habit row with
key 5 and the given name and color cells. -/
def mkHabitFile (name color : String) : String :=
  csvHeaderLine ++ "\n" ++ "habit,5,,,,,,," ++ name ++ "," ++ color ++ ",,"

/-- C8: an import file whose only data row is a habit row with key 5
parses to a habit sequence of length exactly six: indices 0 through 4
are empty placeholder habits and index 5 carries the given name and
color; nothing is reordered and nothing else of the snapshot is
touched. The name and color are arbitrary strings free of the four
characters that would change the row or line structure of the file. -/
theorem C8_sparse_habit_padding (name color : String)
    (hn : ∀ c ∈ name.data, c ≠ '"' ∧ c ≠ ',' ∧ c ≠ '\n' ∧ c ≠ '\r')
    (hc : ∀ c ∈ color.data, c ≠ '"' ∧ c ≠ ',' ∧ c ≠ '\n' ∧ c ≠ '\r') :
    parseCSVData (mkHabitFile name color) =
      .ok { initParsed with
        habits := List.replicate 5 ⟨none, none, []⟩ ++ [⟨some name, some color, []⟩] } := by
  have hdata : (mkHabitFile name color).data =
      csvHeaderLine.data ++ '\n' ::
        (("habit,5,,,,,,," : String).data ++ (name.data ++ (',' :: (color.data ++ [',', ','])))) := by
    simp [mkHabitFile, String.data_append]
  have hsafe : ∀ c ∈ ("habit,5,,,,,,," : String).data ++
      (name.data ++ (',' :: (color.data ++ [',', ',']))), c ≠ '\n' ∧ c ≠ '\r' := by
    have hlit1 : ∀ c ∈ ("habit,5,,,,,,," : String).data, c ≠ '\n' ∧ c ≠ '\r' := by decide
    have hlit2 : ∀ c ∈ [',', ','], c ≠ '\n' ∧ c ≠ '\r' := by decide
    intro c hmem
    rcases List.mem_append.mp hmem with h1 | h2
    · exact hlit1 c h1
    rcases List.mem_append.mp h2 with h3 | h4
    · exact ⟨(hn c h3).2.2.1, (hn c h3).2.2.2⟩
    rcases List.mem_cons.mp h4 with h5 | h6
    · subst h5; exact ⟨by decide, by decide⟩
    rcases List.mem_append.mp h6 with h7 | h8
    · exact ⟨(hc c h7).2.2.1, (hc c h7).2.2.2⟩
    · exact hlit2 c h8
  have hrows : splitLinesAux (mkHabitFile name color).data =
      [csvHeaderLine.data,
        ("habit,5,,,,,,," : String).data ++ (name.data ++ (',' :: (color.data ++ [',', ','])))] := by
    rw [hdata, splitLinesAux_append_newline _ _ (by decide),
      splitLinesAux_single _ hsafe]
  have htok : (parseCSVRowAux (("habit,5,,,,,,," : String).data ++
      (name.data ++ (',' :: (color.data ++ [',', ','])))) false []) =
      [['h','a','b','i','t'], ['5'], [], [], [], [], [], [], name.data, color.data, [], []] := by
    have hpd : ("habit,5,,,,,,," : String).data =
        ['h','a','b','i','t',',','5',',',',',',',',',',',',',','] := rfl
    rw [hpd]
    simp only [List.cons_append, List.nil_append]
    simp only [parseCSVRowAux]
    rw [aux_unquoted name.data _ _ (fun c hc2 => ⟨(hn c hc2).1, (hn c hc2).2.1⟩)]
    simp only [List.append_nil, aux_comma]
    rw [aux_unquoted color.data _ _ (fun c hc2 => ⟨(hc c hc2).1, (hc c hc2).2.1⟩)]
    simp only [List.append_nil, aux_comma, aux_nil]
    simp
  have hblank : ((("habit,5,,,,,,," : String).data ++
      (name.data ++ (',' :: (color.data ++ [',', ','])))).all (fun c => c.isWhitespace)) =
      false := by
    have h1 : (("habit,5,,,,,,," : String).data.all (fun c => c.isWhitespace)) = false := by
      decide
    simp [List.all_append, h1]
  have hproc : processRow (headerIndexOf csvHeaders)
      initParsed (("habit,5,,,,,,," : String).data ++
        (name.data ++ (',' :: (color.data ++ [',', ','])))) =
      .ok { initParsed with
        habits := List.replicate 5 ⟨none, none, []⟩ ++ [⟨some name, some color, []⟩] } := by
    rw [processRow]
    rw [hblank]
    simp only [Bool.false_eq_true, if_false, rowCell, htok]
    have h0 : headerIndexOf csvHeaders "data_type" = some 0 := by decide
    have h1 : headerIndexOf csvHeaders "key" = some 1 := by decide
    have h8 : headerIndexOf csvHeaders "name" = some 8 := by decide
    have h9 : headerIndexOf csvHeaders "color" = some 9 := by decide
    simp only [h0, h1, h8, h9, Option.bind, List.map_cons, List.get?, mk_data]
    have hhab : String.mk ['h', 'a', 'b', 'i', 't'] = "habit" := by decide
    have h5s : String.mk ['5'] = "5" := by decide
    have hpi : parseIntJS "5" = some 5 := by decide
    simp only [hhab, h5s]
    simp [hpi, padHabits, initParsed, List.replicate, mk_data]
  have hhdr : (parseCSVRowAux csvHeaderLine.data false []).map String.mk = csvHeaders := by
    decide
  have hlen : ¬ ((splitLinesAux (mkHabitFile name color).data).length < 2) := by
    rw [hrows]; simp
  have hdrop : (splitLinesAux (mkHabitFile name color).data).drop 1 =
      [("habit,5,,,,,,," : String).data ++ (name.data ++ (',' :: (color.data ++ [',', ','])))] := by
    rw [hrows]
    rfl
  have hhd : (splitLinesAux (mkHabitFile name color).data).headD [] = csvHeaderLine.data := by
    rw [hrows]
    rfl
  unfold parseCSVData
  rw [if_neg hlen, hdrop, hhd, hhdr]
  simp only [List.foldlM]
  rw [hproc]
  rfl

/-- Witness for C8 at a concrete habit name and color. -/
theorem C8_sparse_habit_padding_witness :
    parseCSVData (mkHabitFile "Read" "#4CAF50") =
      .ok { initParsed with habits := List.replicate 5 ⟨none, none, []⟩ ++
        [⟨some "Read", some "#4CAF50", []⟩] } :=
  C8_sparse_habit_padding "Read" "#4CAF50" (by decide) (by decide)

/-- A storage state whose only interesting content is a habit whose name is a
single double-quote character, used to exercise the serialize/parse round
trip. -/
def bugStore : RawStore where
  goal_water := some "2000"
  intake_water := some "500"
  goal_protein := none
  intake_protein := none
  history_water := .val []
  history_protein := .val []
  workout_state := .val []
  workout_count := .val []
  workout_history := .val []
  habits_data := .val [⟨some "\"", some "#fff", []⟩]
  app_theme := none
  global_reminder := none

/-- C1: the round-trip law fails. For the valid snapshot bugStore, whose single
habit is named with one double-quote character, serializing with
convertDataToCSV and parsing back with parseCSVData yields a habit named with
TWO double-quote characters, which is not deep-equal to the original modulo
padding and numeric coercion. The root cause is visible at the field level:
parseCSVRow pairs the opening quote of an escaped field with the first content
quote, so escapeCSV followed by parseCSVRow maps the one-quote string to the
two-quote string. -/
theorem C1_roundtrip_quote_bug :
    bugStore.habits_data = .val [⟨some "\"", some "#fff", []⟩] ∧
      parseCSVRow (escapeCSVStr "\"") = ["\"\""] ∧
      ((convertDataToCSV "2024-06-01T00:00:00.000Z" bugStore).bind parseCSVData).map
          (fun st => st.habits.map (fun hb => hb.name)) = .ok [some "\"\""] ∧
      (some ("\"\"" : String)) ≠ some "\"" := by
  refine ⟨rfl, by decide, by rfl, by decide⟩

/-- A storage state with real water data and a corrupt history_protein value. -/
def c2Store : RawStore where
  goal_water := some "2000"
  intake_water := some "500"
  goal_protein := some "150"
  intake_protein := some "80"
  history_water := .val [("2024-01-01", [⟨250, "2024-01-01T08:00:00Z"⟩])]
  history_protein := .corrupt
  workout_state := .val [("pushups", ⟨true, 1⟩)]
  workout_count := .val [("pushups", 12)]
  workout_history := .val []
  habits_data := .val [⟨some "walk", some "#4CAF50", [("2024-01-02", "true")]⟩]
  app_theme := some "dark"
  global_reminder := some "on"

/-- C2 counterexample: with a corrupt history_protein and real data under every
other key, convertDataToCSV does NOT succeed with the corrupt key degraded to a
zero value; the JSON.parse exception propagates and the whole export aborts
with a SyntaxError. -/
theorem C2_export_abort_counterexample :
    c2Store.history_protein = Stored.corrupt ∧
      c2Store.history_water = Stored.val [("2024-01-01", [⟨250, "2024-01-01T08:00:00Z"⟩])] ∧
      convertDataToCSV "2024-06-01T00:00:00.000Z" c2Store = .error "SyntaxError" :=
  ⟨rfl, rfl, rfl⟩

/-- C2 amended: whenever the value stored under history_protein is corrupt, the
export does not succeed at all: convertDataToCSV aborts with a SyntaxError,
regardless of the export date and of every other key. -/
theorem C2_corrupt_protein_aborts_export (ed : String) (s : RawStore)
    (h : s.history_protein = .corrupt) :
    convertDataToCSV ed s = .error "SyntaxError" := by
  cases hw : s.history_water <;>
    simp [convertDataToCSV, readJson, h, hw, Bind.bind, Except.bind]

theorem C2_corrupt_protein_aborts_export_witness :
    c2Store.history_protein = .corrupt ∧
      convertDataToCSV "2024-06-01T00:00:00.000Z" c2Store = .error "SyntaxError" :=
  ⟨rfl, C2_corrupt_protein_aborts_export "2024-06-01T00:00:00.000Z" c2Store rfl⟩

end HealthTracker
